import Mathlib

/-!
# stellar-etl: the offer transformation

A shallow embedding of `internal/transform/offer.go` (`TransformOffer`) and of the parts of
the Go language and of the `xdr` / `ingestio` packages it relies on.

* Go's fixed-width integers are integers together with their range.
* Go's `float64` is modelled by the rational value of a finite double; division rounds the
  exact quotient to the nearest double, ties to even (IEEE 754 binary64).
* Go's `(OfferOutput, error)` result is a pair of a record and an optional error message.
* The operations of the `xdr` package whose code is not part of the repository
  (`AccountId.GetAddress`, `MarshalBase64`, `LedgerEntryType.String`) are parameters.
-/

namespace StellarEtl

/-! ## Go values -/

/-- Go `int32`: an integer in `[-2^31, 2^31)`. -/
abbrev Int32 : Type := { v : Int // -2147483648 ≤ v ∧ v < 2147483648 }

/-- Go `int64`: an integer in `[-2^63, 2^63)`. -/
abbrev Int64 : Type := { v : Int // -9223372036854775808 ≤ v ∧ v < 9223372036854775808 }

/-- Go `uint32`: an integer in `[0, 2^32)`. -/
abbrev Uint32 : Type := { v : Int // 0 ≤ v ∧ v < 4294967296 }

/-- Go `int64(x)` for `x` of type `uint32`: widening, the value is kept. -/
def Uint32.toInt64 (x : Uint32) : Int64 :=
  ⟨x.val, by have h := x.property; omega⟩

/-- Go `float64`, finite values only: the rational number the double stands for. -/
abbrev Float64 : Type := ℚ

/-- Round to the nearest integer, ties to the even one. -/
def roundHalfEven (q : ℚ) : ℤ :=
  let f := ⌊q⌋
  if q - f < 1 / 2 then f
  else if 1 / 2 < q - f then f + 1
  else if f % 2 = 0 then f else f + 1

/-- The binary exponent of a positive rational: the `e` with `2^e ≤ q < 2^(e+1)`. -/
def binade (q : ℚ) : ℤ := Int.log 2 q

/-- Rounding of an exact result to binary64: 53 significant bits, round to nearest, ties to
even, with the fixed spacing `2^(-1074)` below the smallest normal number. Results beyond the
largest double (overflow to infinity) are outside this model of finite values. -/
def roundFloat64 (q : ℚ) : Float64 :=
  if q = 0 then 0
  else
    let e := max (binade |q|) (-1022)
    let ulp : ℚ := (2 : ℚ) ^ (e - 52)
    (roundHalfEven (q / ulp) : ℚ) * ulp

/-- Go `float64(n)` for `n` of type `int32`: exact, every `int32` is a double. -/
def Int32.toFloat64 (n : Int32) : Float64 := (n.val : ℚ)

/-- Go `a / b` on `float64`, for a divisor that is not zero: the correctly rounded quotient. -/
def Float64.div (a b : Float64) : Float64 := roundFloat64 (a / b)

/-- Go `fmt` verb `%d` on a signed integer: decimal digits, `-` in front when negative. -/
def fmtD (i : Int) : String :=
  if i < 0 then "-" ++ Nat.repr i.natAbs else Nat.repr i.natAbs

/-! ## The parts of `xdr` and `ingestio` that `TransformOffer` reads -/

/-- The `xdr.LedgerEntryType` discriminant of a ledger entry's payload. -/
inductive LedgerEntryType where
  | Account
  | Trustline
  | Offer
  | Data
deriving DecidableEq, Repr

/-- The `xdr.LedgerEntryChangeType` of a change. -/
inductive LedgerEntryChangeType where
  | Created
  | Updated
  | Removed
  | State
deriving DecidableEq, Repr

/-- The `xdr.Price` rational. -/
structure Price where
  N : Int32
  D : Int32
deriving DecidableEq

/-- The `xdr.OfferEntry` payload, its fields with the types the `xdr` package declares
(`OfferId` and `Amount` are `Int64`, the price parts `Int32`, `Flags` is `Uint32`). The
account identifier and the asset descriptor are types of the `xdr` package that
`TransformOffer` only hands to `xdr` functions. -/
structure OfferEntry (AccountId Asset : Type) where
  SellerId : AccountId
  OfferId : Int64
  Selling : Asset
  Buying : Asset
  Amount : Int64
  Price : Price
  Flags : Uint32

/-- The `xdr.LedgerEntryData` union: the discriminant with the arm it selects. The payloads
of the arms other than the offer one are never read by the transformation. -/
inductive LedgerEntryData (AccountId Asset : Type) where
  | Account
  | Trustline
  | Offer (offer : OfferEntry AccountId Asset)
  | Data

/-- The `Type` field of the union. -/
def LedgerEntryData.Type {AccountId Asset : Type} :
    LedgerEntryData AccountId Asset → LedgerEntryType
  | .Account => .Account
  | .Trustline => .Trustline
  | .Offer _ => .Offer
  | .Data => .Data

/-- The accessor `GetOffer` of the union: the offer arm when the discriminant selects it. -/
def LedgerEntryData.GetOffer {AccountId Asset : Type} :
    LedgerEntryData AccountId Asset → Option (OfferEntry AccountId Asset)
  | .Offer offer => some offer
  | _ => none

/-- The `xdr.LedgerEntry` snapshot. -/
structure LedgerEntry (AccountId Asset : Type) where
  LastModifiedLedgerSeq : Uint32
  Data : LedgerEntryData AccountId Asset

/-- Modelled from the spec: the `LedgerEntryChange` handed over by the ingestion package,
whose code is not part of the repository. It has up to two snapshots, `Pre` and `Post`
(a Go pointer, `none` for `nil`), plus the change-kind tag that the method
`LedgerEntryChangeType()` reports. The tag is not independent of the snapshots: the
changes the package hands over are those that satisfy `Change.Receivable` below. -/
structure Change (AccountId Asset : Type) where
  LedgerEntryChangeType : LedgerEntryChangeType
  Pre : Option (LedgerEntry AccountId Asset)
  Post : Option (LedgerEntry AccountId Asset)

/-- Modelled from the spec: the kind that the method `LedgerEntryChangeType()` of the
ingestion package computes from the two snapshots. `Pre` is absent on a creation, `Post` is
absent on a removal, an update has both; with neither snapshot the method panics, which is
`none` here. -/
def changeTypeOf {AccountId Asset : Type} (pre post : Option (LedgerEntry AccountId Asset)) :
    Option LedgerEntryChangeType :=
  match pre, post with
  | none, some _ => some LedgerEntryChangeType.Created
  | some _, none => some LedgerEntryChangeType.Removed
  | some _, some _ => some LedgerEntryChangeType.Updated
  | none, none => none

/-- A change as the ingestion package hands it over: its kind is the one computed from its
snapshots. -/
def Change.Receivable {AccountId Asset : Type} (c : Change AccountId Asset) : Prop :=
  changeTypeOf c.Pre c.Post = some c.LedgerEntryChangeType

instance {AccountId Asset : Type} (c : Change AccountId Asset) : Decidable c.Receivable := by
  unfold Change.Receivable; infer_instance

/-- The functions of the `xdr` package called by `TransformOffer`, taken as parameters:
`GetAddress` on the seller, `MarshalBase64` on an asset, and the `String` method used to
print a `LedgerEntryType` with `%s`. A Go `(string, error)` result is `Except`. -/
structure XdrLib (AccountId Asset : Type) where
  GetAddress : AccountId → Except String String
  MarshalBase64 : Asset → Except String String
  TypeString : LedgerEntryType → String

/-! ## `internal/transform` -/

/-- The record `OfferOutput` produced for the analytical store. -/
structure OfferOutput where
  SellerID : String
  OfferID : Int64
  SellingAsset : String
  BuyingAsset : String
  Amount : Int64
  PriceN : Int32
  PriceD : Int32
  Price : Float64
  Flags : Uint32
  LastModifiedLedger : Int64
deriving DecidableEq

/-- Go's `OfferOutput{}`: every field at its zero value. -/
def OfferOutput.zero : OfferOutput :=
  { SellerID := "", OfferID := ⟨0, by decide⟩, SellingAsset := "", BuyingAsset := "",
    Amount := ⟨0, by decide⟩, PriceN := ⟨0, by decide⟩, PriceD := ⟨0, by decide⟩,
    Price := 0, Flags := ⟨0, by decide⟩, LastModifiedLedger := ⟨0, by decide⟩ }

/-- Go's `TransformOffer`: the returned pair is the record and the error (`none` is `nil`). -/
def TransformOffer {AccountId Asset : Type} (xdr : XdrLib AccountId Asset)
    (ledgerChange : Change AccountId Asset) : OfferOutput × Option String :=
  let ledgerEntry :=
    if ledgerChange.LedgerEntryChangeType = LedgerEntryChangeType.Removed then ledgerChange.Pre
    else ledgerChange.Post
  match ledgerEntry with
  | none => (OfferOutput.zero, some "Ledger entry is nil")
  | some ledgerEntry =>
    match ledgerEntry.Data.GetOffer with
    | none =>
      (OfferOutput.zero,
        some ("Could not extract offer data from ledger entry; actual type is "
          ++ xdr.TypeString ledgerEntry.Data.Type))
    | some offerEntry =>
      match xdr.GetAddress offerEntry.SellerId with
      | .error err => (OfferOutput.zero, some err)
      | .ok outputSellerID =>
        let outputOfferID : Int64 := offerEntry.OfferId
        if outputOfferID.val < 0 then
          (OfferOutput.zero,
            some ("OfferID is negative (" ++ fmtD outputOfferID.val
              ++ ") for offer from account: " ++ outputSellerID))
        else
          match xdr.MarshalBase64 offerEntry.Selling with
          | .error err => (OfferOutput.zero, some err)
          | .ok outputSellingAsset =>
            match xdr.MarshalBase64 offerEntry.Buying with
            | .error err => (OfferOutput.zero, some err)
            | .ok outputBuyingAsset =>
              let outputAmount : Int64 := offerEntry.Amount
              if outputAmount.val < 0 then
                (OfferOutput.zero,
                  some ("Amount is negative (" ++ fmtD outputAmount.val ++ ") for offer "
                    ++ fmtD outputOfferID.val))
              else
                let outputPriceN : Int32 := offerEntry.Price.N
                if outputPriceN.val < 0 then
                  (OfferOutput.zero,
                    some ("Price numerator is negative (" ++ fmtD outputPriceN.val
                      ++ ") for offer " ++ fmtD outputOfferID.val))
                else
                  let outputPriceD : Int32 := offerEntry.Price.D
                  if outputPriceD.val = 0 then
                    (OfferOutput.zero,
                      some ("Price denominator is 0 for offer " ++ fmtD outputOfferID.val))
                  else if outputPriceD.val < 0 then
                    (OfferOutput.zero,
                      some ("Price denominator is negative (" ++ fmtD outputPriceD.val
                        ++ ") for offer " ++ fmtD outputOfferID.val))
                  else
                    let outputPrice : Float64 :=
                      if 0 < outputPriceN.val then
                        Float64.div outputPriceN.toFloat64 outputPriceD.toFloat64
                      else 0
                    let outputFlags : Uint32 := offerEntry.Flags
                    if outputFlags.val < 0 then
                      (OfferOutput.zero,
                        some ("Flags are negative (" ++ fmtD outputFlags.val
                          ++ ")for account: " ++ outputSellerID))
                    else
                      let outputLastModifiedLedger : Int64 :=
                        ledgerEntry.LastModifiedLedgerSeq.toInt64
                      if outputLastModifiedLedger.val < 0 then
                        (OfferOutput.zero,
                          some ("Last modified ledger number is negative ("
                            ++ fmtD outputLastModifiedLedger.val
                            ++ ") for account: " ++ outputSellerID))
                      else
                        ({ SellerID := outputSellerID
                           OfferID := outputOfferID
                           SellingAsset := outputSellingAsset
                           BuyingAsset := outputBuyingAsset
                           Amount := outputAmount
                           PriceN := outputPriceN
                           PriceD := outputPriceD
                           Price := outputPrice
                           Flags := outputFlags
                           LastModifiedLedger := outputLastModifiedLedger }, none)

/-- A call of `TransformOffer` on the Go value with these two snapshots: the kind read on
line 13 is the one the method computes; `none` is the panic of the method on a change with
neither snapshot, which happens before the nil check of line 17. -/
def TransformOfferOn {AccountId Asset : Type} (xdr : XdrLib AccountId Asset)
    (pre post : Option (LedgerEntry AccountId Asset)) : Option (OfferOutput × Option String) :=
  match changeTypeOf pre post with
  | none => none
  | some kind => some (TransformOffer xdr ⟨kind, pre, post⟩)

/-! ## The three stages of the transformation

The same code cut into the stages of the design: the change classifier (lines 12-15), the
nil check and the field extractor (lines 17-24), the validator / normalizer (lines 26-93). -/

/-- Change classifier: the snapshot a change is read from. -/
def selectSnapshot {AccountId Asset : Type} (ledgerChange : Change AccountId Asset) :
    Option (LedgerEntry AccountId Asset) :=
  if ledgerChange.LedgerEntryChangeType = LedgerEntryChangeType.Removed then ledgerChange.Pre
  else ledgerChange.Post

/-- Field extractor: the offer payload of a snapshot, or the wrong-variant message. -/
def extractOffer {AccountId Asset : Type} (xdr : XdrLib AccountId Asset)
    (ledgerEntry : LedgerEntry AccountId Asset) : Except String (OfferEntry AccountId Asset) :=
  match ledgerEntry.Data.GetOffer with
  | some offerEntry => .ok offerEntry
  | none =>
    .error ("Could not extract offer data from ledger entry; actual type is "
      ++ xdr.TypeString ledgerEntry.Data.Type)

/-- The price of the record: the zero value unless the numerator is positive (lines 65-68). -/
def computePrice (outputPriceN outputPriceD : Int32) : Float64 :=
  if 0 < outputPriceN.val then Float64.div outputPriceN.toFloat64 outputPriceD.toFloat64
  else 0

/-- Validator / normalizer: the checks of lines 26-93 on an offer payload, in their order. -/
def buildOutput {AccountId Asset : Type} (xdr : XdrLib AccountId Asset)
    (offerEntry : OfferEntry AccountId Asset) (lastModifiedLedgerSeq : Uint32) :
    OfferOutput × Option String :=
  match xdr.GetAddress offerEntry.SellerId with
  | .error err => (OfferOutput.zero, some err)
  | .ok outputSellerID =>
    if offerEntry.OfferId.val < 0 then
      (OfferOutput.zero,
        some ("OfferID is negative (" ++ fmtD offerEntry.OfferId.val
          ++ ") for offer from account: " ++ outputSellerID))
    else
      match xdr.MarshalBase64 offerEntry.Selling with
      | .error err => (OfferOutput.zero, some err)
      | .ok outputSellingAsset =>
        match xdr.MarshalBase64 offerEntry.Buying with
        | .error err => (OfferOutput.zero, some err)
        | .ok outputBuyingAsset =>
          if offerEntry.Amount.val < 0 then
            (OfferOutput.zero,
              some ("Amount is negative (" ++ fmtD offerEntry.Amount.val ++ ") for offer "
                ++ fmtD offerEntry.OfferId.val))
          else if offerEntry.Price.N.val < 0 then
            (OfferOutput.zero,
              some ("Price numerator is negative (" ++ fmtD offerEntry.Price.N.val
                ++ ") for offer " ++ fmtD offerEntry.OfferId.val))
          else if offerEntry.Price.D.val = 0 then
            (OfferOutput.zero,
              some ("Price denominator is 0 for offer " ++ fmtD offerEntry.OfferId.val))
          else if offerEntry.Price.D.val < 0 then
            (OfferOutput.zero,
              some ("Price denominator is negative (" ++ fmtD offerEntry.Price.D.val
                ++ ") for offer " ++ fmtD offerEntry.OfferId.val))
          else if offerEntry.Flags.val < 0 then
            (OfferOutput.zero,
              some ("Flags are negative (" ++ fmtD offerEntry.Flags.val
                ++ ")for account: " ++ outputSellerID))
          else if lastModifiedLedgerSeq.toInt64.val < 0 then
            (OfferOutput.zero,
              some ("Last modified ledger number is negative ("
                ++ fmtD lastModifiedLedgerSeq.toInt64.val
                ++ ") for account: " ++ outputSellerID))
          else
            ({ SellerID := outputSellerID
               OfferID := offerEntry.OfferId
               SellingAsset := outputSellingAsset
               BuyingAsset := outputBuyingAsset
               Amount := offerEntry.Amount
               PriceN := offerEntry.Price.N
               PriceD := offerEntry.Price.D
               Price := computePrice offerEntry.Price.N offerEntry.Price.D
               Flags := offerEntry.Flags
               LastModifiedLedger := lastModifiedLedgerSeq.toInt64 }, none)

/-- The record of lines 80-91, assembled from an offer that passed every check. -/
def assembled {AccountId Asset : Type} (o : OfferEntry AccountId Asset) (seq : Uint32)
    (addr selling buying : String) : OfferOutput :=
  { SellerID := addr, OfferID := o.OfferId, SellingAsset := selling, BuyingAsset := buying,
    Amount := o.Amount, PriceN := o.Price.N, PriceD := o.Price.D,
    Price := computePrice o.Price.N o.Price.D, Flags := o.Flags,
    LastModifiedLedger := seq.toInt64 }

/-- The extract-and-validate pipeline on one snapshot, absent or present. -/
def validateSnapshot {AccountId Asset : Type} (xdr : XdrLib AccountId Asset)
    (snapshot : Option (LedgerEntry AccountId Asset)) : OfferOutput × Option String :=
  match snapshot with
  | none => (OfferOutput.zero, some "Ledger entry is nil")
  | some ledgerEntry =>
    match extractOffer xdr ledgerEntry with
    | .error err => (OfferOutput.zero, some err)
    | .ok offerEntry => buildOutput xdr offerEntry ledgerEntry.LastModifiedLedgerSeq

/-- The `return` statements of `TransformOffer` that hand back an error, by what they
report (lines 18, 23, 28, 33, 38, 43, 48, 53, 58, 62, 72 and 77). -/
inductive ReturnSite where
  | nilEntry
  | wrongVariant
  | sellerAddress
  | offerIdNegative
  | sellingAsset
  | buyingAsset
  | amountNegative
  | numeratorNegative
  | denominatorZero
  | denominatorNegative
  | flagsNegative
  | lastModifiedNegative
deriving DecidableEq, Repr

/-- Go's `TransformOffer` once more, every error paired with the `return` statement that
produced it; the control flow and the values are those of `TransformOffer`. -/
def TransformOfferTraced {AccountId Asset : Type} (xdr : XdrLib AccountId Asset)
    (ledgerChange : Change AccountId Asset) : OfferOutput × Option (ReturnSite × String) :=
  let ledgerEntry :=
    if ledgerChange.LedgerEntryChangeType = LedgerEntryChangeType.Removed then ledgerChange.Pre
    else ledgerChange.Post
  match ledgerEntry with
  | none => (OfferOutput.zero, some (.nilEntry, "Ledger entry is nil"))
  | some ledgerEntry =>
    match ledgerEntry.Data.GetOffer with
    | none =>
      (OfferOutput.zero,
        some (.wrongVariant, "Could not extract offer data from ledger entry; actual type is "
          ++ xdr.TypeString ledgerEntry.Data.Type))
    | some offerEntry =>
      match xdr.GetAddress offerEntry.SellerId with
      | .error err => (OfferOutput.zero, some (.sellerAddress, err))
      | .ok outputSellerID =>
        let outputOfferID : Int64 := offerEntry.OfferId
        if outputOfferID.val < 0 then
          (OfferOutput.zero,
            some (.offerIdNegative, "OfferID is negative (" ++ fmtD outputOfferID.val
              ++ ") for offer from account: " ++ outputSellerID))
        else
          match xdr.MarshalBase64 offerEntry.Selling with
          | .error err => (OfferOutput.zero, some (.sellingAsset, err))
          | .ok outputSellingAsset =>
            match xdr.MarshalBase64 offerEntry.Buying with
            | .error err => (OfferOutput.zero, some (.buyingAsset, err))
            | .ok outputBuyingAsset =>
              let outputAmount : Int64 := offerEntry.Amount
              if outputAmount.val < 0 then
                (OfferOutput.zero,
                  some (.amountNegative, "Amount is negative (" ++ fmtD outputAmount.val
                    ++ ") for offer " ++ fmtD outputOfferID.val))
              else
                let outputPriceN : Int32 := offerEntry.Price.N
                if outputPriceN.val < 0 then
                  (OfferOutput.zero,
                    some (.numeratorNegative, "Price numerator is negative ("
                      ++ fmtD outputPriceN.val ++ ") for offer " ++ fmtD outputOfferID.val))
                else
                  let outputPriceD : Int32 := offerEntry.Price.D
                  if outputPriceD.val = 0 then
                    (OfferOutput.zero,
                      some (.denominatorZero,
                        "Price denominator is 0 for offer " ++ fmtD outputOfferID.val))
                  else if outputPriceD.val < 0 then
                    (OfferOutput.zero,
                      some (.denominatorNegative, "Price denominator is negative ("
                        ++ fmtD outputPriceD.val ++ ") for offer " ++ fmtD outputOfferID.val))
                  else
                    let outputPrice : Float64 :=
                      if 0 < outputPriceN.val then
                        Float64.div outputPriceN.toFloat64 outputPriceD.toFloat64
                      else 0
                    let outputFlags : Uint32 := offerEntry.Flags
                    if outputFlags.val < 0 then
                      (OfferOutput.zero,
                        some (.flagsNegative, "Flags are negative (" ++ fmtD outputFlags.val
                          ++ ")for account: " ++ outputSellerID))
                    else
                      let outputLastModifiedLedger : Int64 :=
                        ledgerEntry.LastModifiedLedgerSeq.toInt64
                      if outputLastModifiedLedger.val < 0 then
                        (OfferOutput.zero,
                          some (.lastModifiedNegative,
                            "Last modified ledger number is negative ("
                              ++ fmtD outputLastModifiedLedger.val
                              ++ ") for account: " ++ outputSellerID))
                      else
                        ({ SellerID := outputSellerID
                           OfferID := outputOfferID
                           SellingAsset := outputSellingAsset
                           BuyingAsset := outputBuyingAsset
                           Amount := outputAmount
                           PriceN := outputPriceN
                           PriceD := outputPriceD
                           Price := outputPrice
                           Flags := outputFlags
                           LastModifiedLedger := outputLastModifiedLedger }, none)

/-- The message of line 33, for an offer id that is negative. -/
def msgOfferIdNegative (offerID : Int) (sellerID : String) : String :=
  "OfferID is negative (" ++ fmtD offerID ++ ") for offer from account: " ++ sellerID

/-- The message of line 48, for an amount that is negative. -/
def msgAmountNegative (amount offerID : Int) : String :=
  "Amount is negative (" ++ fmtD amount ++ ") for offer " ++ fmtD offerID

/-- The message of line 53, for a price numerator that is negative. -/
def msgNumeratorNegative (priceN offerID : Int) : String :=
  "Price numerator is negative (" ++ fmtD priceN ++ ") for offer " ++ fmtD offerID

/-- The message of line 58, for a price denominator that is `0`. -/
def msgDenominatorZero (offerID : Int) : String :=
  "Price denominator is 0 for offer " ++ fmtD offerID

/-- The message of line 62, for a price denominator that is negative. -/
def msgDenominatorNegative (priceD offerID : Int) : String :=
  "Price denominator is negative (" ++ fmtD priceD ++ ") for offer " ++ fmtD offerID

/-- The message of line 23, for a snapshot that is not an offer. -/
def msgWrongVariant (tag : String) : String :=
  "Could not extract offer data from ledger entry; actual type is " ++ tag

/-- A string occurs inside another one. -/
def containsStr (s sub : String) : Prop := sub.data <:+: s.data

instance (s sub : String) : Decidable (containsStr s sub) := by
  unfold containsStr; infer_instance

/-- A string ends with another one. -/
def endsWithStr (s sub : String) : Prop := sub.data <:+ s.data

instance (s sub : String) : Decidable (endsWithStr s sub) := by
  unfold endsWithStr; infer_instance

/-- The offer payload with another value in its `Flags` field. -/
def OfferEntry.withFlags {AccountId Asset : Type} (o : OfferEntry AccountId Asset)
    (flags : Uint32) : OfferEntry AccountId Asset :=
  { o with Flags := flags }

/-- The snapshot with another value in the `Flags` field of its offer, if it holds one. -/
def LedgerEntry.withFlags {AccountId Asset : Type} (e : LedgerEntry AccountId Asset)
    (flags : Uint32) : LedgerEntry AccountId Asset :=
  match e.Data with
  | .Offer o => { e with Data := .Offer (o.withFlags flags) }
  | _ => e

/-- The change with another value in the `Flags` field of the offers of its snapshots. -/
def Change.withFlags {AccountId Asset : Type} (c : Change AccountId Asset) (flags : Uint32) :
    Change AccountId Asset :=
  { c with Pre := c.Pre.map (fun e => e.withFlags flags),
           Post := c.Post.map (fun e => e.withFlags flags) }

/-- The change with another `LastModifiedLedgerSeq` in its snapshots. -/
def Change.withSeq {AccountId Asset : Type} (c : Change AccountId Asset) (seq : Uint32) :
    Change AccountId Asset :=
  { c with Pre := c.Pre.map (fun e => { e with LastModifiedLedgerSeq := seq }),
           Post := c.Post.map (fun e => { e with LastModifiedLedgerSeq := seq }) }

/-! ## `internal/utils` -/

/-- Go `uint64`: an integer in `[0, 2^64)`. -/
abbrev Uint64 : Type := { v : Int // 0 ≤ v ∧ v < 18446744073709551616 }

/-- The `int64` that an integer wraps around to: two's complement, modulo `2^64`. -/
def wrapInt64 (x : Int) : Int64 :=
  ⟨(x + 9223372036854775808) % 18446744073709551616 - 9223372036854775808, by omega⟩

/-- Go `int64(x)` for `x` of type `uint64`: the same 64 bits read as a signed integer. -/
def Uint64.toInt64 (x : Uint64) : Int64 := wrapInt64 x.val

/-- The location of a `time.Time`, as far as the conversion uses it. -/
inductive Location where
  | UTC
  | Local
deriving DecidableEq, Repr

/-- Go's `time.Time`: the `wall` word (top bit: a monotonic reading is present, low 30 bits:
nanoseconds), the `ext` word (without a monotonic reading: seconds since year 1) and the
location. -/
structure Time where
  wall : Uint64
  ext : Int64
  loc : Location
deriving DecidableEq

/-- Seconds from year 1 to 1970, `unixToInternal` of package `time`. -/
def unixToInternal : Int := 62135596800

/-- Seconds from year 1 to 1885, `wallToInternal` of package `time`. -/
def wallToInternal : Int := 59453308800

/-- The method `sec` of `time.Time`: seconds since year 1. -/
def Time.sec (t : Time) : Int64 :=
  if 9223372036854775808 ≤ t.wall.val then
    wrapInt64 (wallToInternal + (t.wall.val % 9223372036854775808) / 1073741824)
  else t.ext

/-- The method `Unix` of `time.Time`: seconds since 1970. -/
def Time.Unix (t : Time) : Int64 := wrapInt64 (t.sec.val - unixToInternal)

/-- The method `Nanosecond` of `time.Time`. -/
def Time.Nanosecond (t : Time) : Int := t.wall.val % 1073741824

/-- The method `UTC` of `time.Time`: the same instant with the location set to UTC, the
monotonic reading stripped. -/
def Time.UTC (t : Time) : Time :=
  if 9223372036854775808 ≤ t.wall.val then
    { wall := ⟨t.wall.val % 1073741824, by omega⟩, ext := t.sec, loc := Location.UTC }
  else { t with loc := Location.UTC }

/-- Go's `time.Unix(sec, nsec)`: nanoseconds outside `[0, 1e9)` are carried into the seconds
(Go's `/` truncates), then the local time of that instant is built. -/
def timeUnix (sec nsec : Int64) : Time :=
  let n : Int := if nsec.val < 0 ∨ 1000000000 ≤ nsec.val then Int.tdiv nsec.val 1000000000 else 0
  let sec1 : Int := sec.val + n
  let nsec1 : Int := nsec.val - n * 1000000000
  let sec2 : Int := if nsec1 < 0 then sec1 - 1 else sec1
  let nsec2 : Int := if nsec1 < 0 then nsec1 + 1000000000 else nsec1
  { wall := ⟨nsec2 % 4294967296, by omega⟩
    ext := wrapInt64 (sec2 + unixToInternal)
    loc := Location.Local }

/-- Go's `TimePointToUTCTimeStamp`; `now` is what `time.Now()` returns at the call. -/
def TimePointToUTCTimeStamp (now : Time) (providedTime : Uint64) : Time × Option String :=
  let intTime : Int64 := providedTime.toInt64
  if intTime.val < 0 then (now, some "The timepoint is negative")
  else ((timeUnix intTime ⟨0, by decide⟩).UTC, none)

/-- The `xdr.TransactionResultCode` and `xdr.OperationResultCode` enums are `int32` codes. -/
abbrev ResultCode : Type := Int32

/-- The code `xdr.TransactionResultCodeTxSuccess`. -/
def TransactionResultCodeTxSuccess : ResultCode := ⟨0, by decide⟩

/-- The code `xdr.TransactionResultCodeTxFailed`. -/
def TransactionResultCodeTxFailed : ResultCode := ⟨-1, by decide⟩

/-- The code `xdr.OperationResultCodeOpInner`. -/
def OperationResultCodeOpInner : ResultCode := ⟨0, by decide⟩

/-- The `xdr.OperationResultTr` union; only its zero value `OperationResultTr{}` is built. -/
inductive OperationResultTr where
  | zero
deriving DecidableEq, Repr

/-- The `xdr.OperationResult`: a code and a pointer to the inner result. -/
structure OperationResult where
  Code : ResultCode
  Tr : Option OperationResultTr
deriving DecidableEq

/-- The `xdr.TransactionResultResult`: a code and a pointer to the slice of results. -/
structure TransactionResultResult where
  Code : ResultCode
  Results : Option (List OperationResult)
deriving DecidableEq

/-- The `xdr.TransactionResult`; the fields the function leaves at zero are left out. -/
structure TransactionResult where
  Result : TransactionResultResult
deriving DecidableEq

/-- The `xdr.TransactionResultPair`; the fields the function leaves at zero are left out. -/
structure TransactionResultPair where
  Result : TransactionResult
deriving DecidableEq

/-- The `xdr.TransactionResultMeta`; the fields the function leaves at zero are left out. -/
structure TransactionResultMeta where
  Result : TransactionResultPair
deriving DecidableEq

/-- Go `i++` on an `int` (64 bits): the next integer, wrapping around at the top. -/
def Int64.incr (i : Int64) : Int64 := wrapInt64 (i.val + 1)

/-- The loop of lines 84-89, from the counter `i` and the slice built so far: while
`i < subOperationCount`, append one result and increment `i`. -/
def appendSampleResults (subOperationCount : Int64) (i : Int64)
    (operationResults : List OperationResult) : List OperationResult :=
  if i.val < subOperationCount.val then
    appendSampleResults subOperationCount i.incr
      (operationResults ++
        [{ Code := OperationResultCodeOpInner, Tr := some OperationResultTr.zero }])
  else operationResults
termination_by (subOperationCount.val - i.val).toNat
decreasing_by
  have _hcount := subOperationCount.property
  have _hi := i.property
  simp only [Int64.incr, wrapInt64]
  omega

/-- Go's `CreateSampleResultMeta`; the count is a Go `int` (64 bits). -/
def CreateSampleResultMeta (successful : Bool) (subOperationCount : Int64) :
    TransactionResultMeta :=
  let resultCode : ResultCode :=
    if successful then TransactionResultCodeTxSuccess else TransactionResultCodeTxFailed
  let operationResults : List OperationResult :=
    appendSampleResults subOperationCount ⟨0, by decide⟩ []
  { Result := { Result := { Result := { Code := resultCode, Results := some operationResults } } } }

/-! ## Sample data -/

/-- A stand-in for the `xdr` functions on sample data: an account identifier is resolved
when it is not empty, an asset is encoded when it is not empty. -/
def sampleXdr : XdrLib String String where
  GetAddress := fun a => if a = "" then .error "Unknown account id type" else .ok a
  MarshalBase64 := fun a => if a = "" then .error "invalid asset" else .ok a
  TypeString := fun t =>
    match t with
    | .Account => "LedgerEntryTypeAccount"
    | .Trustline => "LedgerEntryTypeTrustline"
    | .Offer => "LedgerEntryTypeOffer"
    | .Data => "LedgerEntryTypeData"

/-- The sample offer of the specification: id `42`, amount `1000000000`, price `3/2`. -/
def sampleOffer : OfferEntry String String :=
  { SellerId := "GSELLER", OfferId := ⟨42, by decide⟩, Selling := "native", Buying := "USD",
    Amount := ⟨1000000000, by decide⟩, Price := ⟨⟨3, by decide⟩, ⟨2, by decide⟩⟩,
    Flags := ⟨1, by decide⟩ }

/-- A snapshot holding the sample offer, last modified in ledger `7`. -/
def sampleEntry : LedgerEntry String String :=
  { LastModifiedLedgerSeq := ⟨7, by decide⟩, Data := .Offer sampleOffer }

/-- A snapshot that is an account entry, not an offer. -/
def sampleAccountEntry : LedgerEntry String String :=
  { LastModifiedLedgerSeq := ⟨7, by decide⟩, Data := .Account }

/-- The sample offer arriving as a creation. -/
def sampleCreated : Change String String :=
  ⟨LedgerEntryChangeType.Created, none, some sampleEntry⟩

/-- The sample offer with the offer id `-5`. -/
def sampleOfferNegativeId : OfferEntry String String :=
  { sampleOffer with OfferId := ⟨-5, by decide⟩ }

/-- A snapshot holding the sample offer with the offer id `-5`. -/
def sampleEntryNegativeId : LedgerEntry String String :=
  { LastModifiedLedgerSeq := ⟨7, by decide⟩, Data := .Offer sampleOfferNegativeId }

/-- The sample offer with the price `n/d`. -/
def sampleOfferWithPrice (n d : Int32) : OfferEntry String String :=
  { sampleOffer with Price := ⟨n, d⟩ }

/-- A snapshot holding the sample offer with the price `n/d`. -/
def sampleEntryWithPrice (n d : Int32) : LedgerEntry String String :=
  { LastModifiedLedgerSeq := ⟨7, by decide⟩, Data := .Offer (sampleOfferWithPrice n d) }

/-- A creation of the sample offer with the price `n/d`. -/
def sampleCreatedWithPrice (n d : Int32) : Change String String :=
  ⟨LedgerEntryChangeType.Created, none, some (sampleEntryWithPrice n d)⟩

/-- A snapshot holding the offer `o`, last modified in ledger `7`. -/
def sampleEntryOf (o : OfferEntry String String) : LedgerEntry String String :=
  { LastModifiedLedgerSeq := ⟨7, by decide⟩, Data := .Offer o }

/-- A creation of the offer `o`. -/
def sampleCreatedOf (o : OfferEntry String String) : Change String String :=
  ⟨LedgerEntryChangeType.Created, none, some (sampleEntryOf o)⟩

/-- The sample offer with the offer id `-5` and the price `3/0`: two violated checks. -/
def sampleOfferBadIdZeroD : OfferEntry String String :=
  { sampleOffer with OfferId := ⟨-5, by decide⟩, Price := ⟨⟨3, by decide⟩, ⟨0, by decide⟩⟩ }

/-- The sample offer with the amount `-7` and the price `-1/2`: two violated checks. -/
def sampleOfferBadAmountBadN : OfferEntry String String :=
  { sampleOffer with Amount := ⟨-7, by decide⟩, Price := ⟨⟨-1, by decide⟩, ⟨2, by decide⟩⟩ }

/-- Another stand-in for the `xdr` functions: as `sampleXdr` on what is not empty, with
other errors on what is empty. -/
def sampleXdrOther : XdrLib String String where
  GetAddress := fun a => if a = "" then .error "Could not get Ed25519" else .ok a
  MarshalBase64 := fun a => if a = "" then .error "empty asset" else .ok a
  TypeString := sampleXdr.TypeString

/-- A clock reading for `time.Now()`: a wall-clock time without monotonic reading. -/
def sampleNow : Time :=
  { wall := ⟨5, by decide⟩, ext := ⟨63800000000, by decide⟩, loc := Location.Local }

/-! ## Rounding to binary64 -/

/-- An integer is rounded to itself. -/
theorem roundHalfEven_intCast (n : ℤ) : roundHalfEven (n : ℚ) = n := by
  simp [roundHalfEven]

/-- Rounding to the nearest integer moves a number by at most one half. -/
theorem roundHalfEven_abs_sub_le (x : ℚ) : |(roundHalfEven x : ℚ) - x| ≤ 1 / 2 := by
  have h0 : (⌊x⌋ : ℚ) ≤ x := Int.floor_le x
  have h1 : x < ⌊x⌋ + 1 := Int.lt_floor_add_one x
  unfold roundHalfEven
  simp only []
  split_ifs with ha hb hc
  · rw [abs_le]; constructor <;> linarith
  · rw [abs_le]; push_cast; constructor <;> linarith
  · rw [abs_le]; constructor <;> linarith
  · rw [abs_le]; push_cast; constructor <;> linarith

/-- The binary exponent brackets a positive rational between two powers of two. -/
theorem binade_spec (q : ℚ) (hq : 0 < q) :
    (2 : ℚ) ^ binade q ≤ q ∧ q < (2 : ℚ) ^ (binade q + 1) := by
  unfold binade
  constructor
  · exact_mod_cast Int.zpow_log_le_self (b := 2) (by norm_num) hq
  · exact_mod_cast Int.lt_zpow_succ_log_self (b := 2) (by norm_num) q

/-- The binary exponent is the only exponent that brackets the number. -/
theorem binade_eq (q : ℚ) (e : ℤ) (hlo : (2 : ℚ) ^ e ≤ q) (hhi : q < (2 : ℚ) ^ (e + 1)) :
    binade q = e := by
  have hq : 0 < q := lt_of_lt_of_le (zpow_pos (by norm_num) e) hlo
  unfold binade
  apply le_antisymm
  · have h := (Int.lt_zpow_iff_log_lt (b := 2) (by norm_num) hq (x := e + 1)).mp
      (by exact_mod_cast hhi)
    omega
  · exact (Int.zpow_le_iff_le_log (b := 2) (by norm_num) hq).mp (by exact_mod_cast hlo)

/-- In the normal range the rounded value is within half a unit in the last place, a
relative error of at most `2^(-53)`. -/
theorem roundFloat64_abs_sub_le (q : ℚ) (hq : (2 : ℚ) ^ (-1022 : ℤ) ≤ q) :
    |roundFloat64 q - q| ≤ q / 2 ^ 53 := by
  have hpos : 0 < q := lt_of_lt_of_le (zpow_pos (by norm_num) _) hq
  have habs : |q| = q := abs_of_pos hpos
  have hle : (-1022 : ℤ) ≤ binade q := by
    unfold binade
    exact (Int.zpow_le_iff_le_log (b := 2) (by norm_num) hpos).mp (by exact_mod_cast hq)
  obtain ⟨hlo, -⟩ := binade_spec q hpos
  unfold roundFloat64
  rw [if_neg (ne_of_gt hpos), habs, max_eq_left hle]
  simp only []
  set e := binade q with he
  have hu : (0 : ℚ) < (2 : ℚ) ^ (e - 52) := zpow_pos (by norm_num) _
  have hr := roundHalfEven_abs_sub_le (q / (2 : ℚ) ^ (e - 52))
  have key : (roundHalfEven (q / (2 : ℚ) ^ (e - 52)) : ℚ) * (2 : ℚ) ^ (e - 52) - q
      = ((roundHalfEven (q / (2 : ℚ) ^ (e - 52)) : ℚ) - q / (2 : ℚ) ^ (e - 52))
        * (2 : ℚ) ^ (e - 52) := by
    field_simp
  rw [key, abs_mul, abs_of_pos hu]
  have h2 : (2 : ℚ) ^ (e - 52) = (2 : ℚ) ^ e / 2 ^ 52 := by
    rw [zpow_sub₀ (by norm_num)]; norm_num
  calc |(roundHalfEven (q / (2 : ℚ) ^ (e - 52)) : ℚ) - q / (2 : ℚ) ^ (e - 52)|
          * (2 : ℚ) ^ (e - 52)
      ≤ 1 / 2 * (2 : ℚ) ^ (e - 52) := mul_le_mul_of_nonneg_right hr (le_of_lt hu)
    _ = (2 : ℚ) ^ e / 2 ^ 53 := by rw [h2]; ring
    _ ≤ q / 2 ^ 53 := div_le_div_of_nonneg_right hlo (by positivity)

/-- The quotient of two positive `int32` values lies in the normal range of binary64. -/
theorem int32_quotient_normal (n d : Int32) (hn : 0 < n.val) (hd : 0 < d.val) :
    (2 : ℚ) ^ (-1022 : ℤ) ≤ n.toFloat64 / d.toFloat64 := by
  unfold Int32.toFloat64
  have hd2 : (d.val : ℚ) ≤ 2147483648 := by exact_mod_cast le_of_lt d.property.2
  have hd0 : (0 : ℚ) < d.val := by exact_mod_cast hd
  have hn1 : (1 : ℚ) ≤ n.val := by exact_mod_cast hn
  rw [le_div_iff₀ hd0]
  calc (2 : ℚ) ^ (-1022 : ℤ) * (d.val : ℚ)
      ≤ (2 : ℚ) ^ (-1022 : ℤ) * 2147483648 :=
        mul_le_mul_of_nonneg_left hd2 (le_of_lt (zpow_pos (by norm_num) _))
    _ = (2 : ℚ) ^ (-1022 : ℤ) * (2 : ℚ) ^ (31 : ℤ) := by norm_num
    _ = (2 : ℚ) ^ (-991 : ℤ) := by rw [← zpow_add₀ (by norm_num)]; norm_num
    _ ≤ (2 : ℚ) ^ (0 : ℤ) := zpow_le_zpow_right₀ (by norm_num) (by norm_num)
    _ = 1 := by norm_num
    _ ≤ n.val := hn1

/-- The double nearest to `3/2` is `1.5` itself. -/
theorem roundFloat64_three_halves : roundFloat64 (3 / 2) = 3 / 2 := by
  have hb : binade |(3 / 2 : ℚ)| = 0 := by
    apply binade_eq <;> norm_num [abs_of_pos]
  unfold roundFloat64
  rw [if_neg (by norm_num), hb]
  have h : (3 / 2 : ℚ) / (2 : ℚ) ^ ((max (0 : ℤ) (-1022)) - 52)
      = ((6755399441055744 : ℤ) : ℚ) := by
    norm_num [zpow_neg]
  simp only [h, roundHalfEven_intCast]
  norm_num [zpow_neg]

/-! ## Strings -/

/-- What occurs in the first part of a string occurs in the string. -/
theorem containsStr_append_left (a b sub : String) (h : containsStr a sub) :
    containsStr (a ++ b) sub := by
  unfold containsStr at *
  rw [String.data_append]
  exact h.trans (List.prefix_append _ _).isInfix

/-- What occurs in the second part of a string occurs in the string. -/
theorem containsStr_append_right (a b sub : String) (h : containsStr b sub) :
    containsStr (a ++ b) sub := by
  unfold containsStr at *
  rw [String.data_append]
  exact h.trans (List.suffix_append _ _).isInfix

/-- A string occurs in itself. -/
theorem containsStr_refl (s : String) : containsStr s s := List.infix_refl _

/-- A string ends with its second part. -/
theorem endsWithStr_append (a b : String) : endsWithStr (a ++ b) b := by
  unfold endsWithStr
  rw [String.data_append]
  exact List.suffix_append _ _

/-- The zero-denominator message and the negative-denominator message differ, whatever the
numbers printed in them. -/
theorem denominator_messages_differ (x y : String) :
    "Price denominator is 0 for offer " ++ x ≠ "Price denominator is negative (" ++ y := by
  intro h
  have hd := congrArg String.data h
  rw [String.data_append, String.data_append] at hd
  have h21 := congrArg (fun l => l.get? 21) hd
  simp at h21

/-- The decimal digit of a number below ten is a digit character. -/
theorem digitChar_isDigit (m : Nat) (h : m < 10) : (Nat.digitChar m).isDigit = true := by
  interval_cases m <;> decide

/-- The decimal conversion only adds digit characters. -/
theorem toDigitsCore_chars (fuel : Nat) : ∀ (n : Nat) (ds : List Char) (c : Char),
    c ∈ Nat.toDigitsCore 10 fuel n ds → c ∈ ds ∨ c.isDigit = true := by
  induction fuel with
  | zero => intro n ds c h; exact Or.inl h
  | succ fuel ih =>
    intro n ds c h
    unfold Nat.toDigitsCore at h
    simp only [] at h
    split_ifs at h with h0
    · rcases List.mem_cons.mp h with h | h
      · exact Or.inr (h ▸ digitChar_isDigit _ (Nat.mod_lt _ (by norm_num)))
      · exact Or.inl h
    · rcases ih _ _ _ h with h | h
      · rcases List.mem_cons.mp h with h | h
        · exact Or.inr (h ▸ digitChar_isDigit _ (Nat.mod_lt _ (by norm_num)))
        · exact Or.inl h
      · exact Or.inr h

/-- A number printed with `%d` consists of digits and possibly a minus sign. -/
theorem fmtD_chars (i : Int) (c : Char) (h : c ∈ (fmtD i).data) :
    c = '-' ∨ c.isDigit = true := by
  have hrepr : ∀ n : Nat, c ∈ (Nat.repr n).data → c.isDigit = true := by
    intro n hn
    have hmem : c ∈ Nat.toDigits 10 n := by simpa [Nat.repr, List.asString] using hn
    rcases toDigitsCore_chars _ _ _ _ hmem with h | h
    · simp at h
    · exact h
  unfold fmtD at h
  split_ifs at h
  · rw [String.data_append] at h
    rcases List.mem_append.mp h with h | h
    · left; simpa using h
    · exact Or.inr (hrepr _ h)
  · exact Or.inr (hrepr _ h)

/-- The letter `d` does not occur in a number printed with `%d`. -/
theorem d_not_mem_fmtD (i : Int) : 'd' ∉ (fmtD i).data := by
  intro h
  rcases fmtD_chars i _ h with h | h
  · exact absurd h (by decide)
  · exact absurd h (by decide)

/-- An occurrence of a pattern in `U ++ V` whose first character is not in `V` starts
inside `U`. -/
theorem infix_append_start {a : Char} {p U V : List Char} (h : (a :: p) <:+: U ++ V)
    (ha : a ∉ V) : ∃ i, i < U.length ∧ (a :: p) <+: U.drop i ++ V := by
  obtain ⟨s, t, hst⟩ := h
  rw [List.append_assoc] at hst
  rcases List.append_eq_append_iff.mp hst with ⟨u, hU, hp⟩ | ⟨v, hs, hV⟩
  · cases u with
    | nil =>
      exfalso
      simp at hp
      apply ha
      rw [← hp]; simp
    | cons b w =>
      refine ⟨s.length, ?_, ?_⟩
      · rw [hU]; simp
      · rw [hU, List.drop_left, ← hp]
        exact List.prefix_append _ _
  · exfalso
    apply ha
    rw [hV]; simp

/-- The zero-denominator message does not say that the denominator is negative. -/
theorem msgDenominatorZero_not_negative (offerID : Int) :
    ¬ containsStr (msgDenominatorZero offerID) "denominator is negative" := by
  intro h
  unfold containsStr msgDenominatorZero at h
  rw [String.data_append] at h
  have hp : "denominator is negative".data = 'd' :: "enominator is negative".data := rfl
  rw [hp] at h
  obtain ⟨i, hi, hpre⟩ := infix_append_start h (d_not_mem_fmtD offerID)
  have hi' : i < 33 := hi
  interval_cases i <;> simp at hpre

/-- The negative-denominator message does not say that the denominator is `0`. -/
theorem msgDenominatorNegative_not_zero (priceD offerID : Int) :
    ¬ containsStr (msgDenominatorNegative priceD offerID) "denominator is 0" := by
  intro h
  unfold containsStr msgDenominatorNegative at h
  rw [String.data_append, String.data_append, String.data_append, List.append_assoc,
    List.append_assoc] at h
  have hp : "denominator is 0".data = 'd' :: "enominator is 0".data := rfl
  rw [hp] at h
  have hV : 'd' ∉ (fmtD priceD).data ++ (") for offer ".data ++ (fmtD offerID).data) := by
    intro hmem
    rcases List.mem_append.mp hmem with h1 | h1
    · exact d_not_mem_fmtD _ h1
    · rcases List.mem_append.mp h1 with h2 | h2
      · simp at h2
      · exact d_not_mem_fmtD _ h2
  obtain ⟨i, hi, hpre⟩ := infix_append_start h hV
  have hi' : i < 31 := hi
  interval_cases i <;> simp at hpre

/-- In the normal range the rounded value of a positive number is positive. -/
theorem roundFloat64_pos (q : ℚ) (hq : (2 : ℚ) ^ (-1022 : ℤ) ≤ q) : 0 < roundFloat64 q := by
  have hpos : 0 < q := lt_of_lt_of_le (zpow_pos (by norm_num) _) hq
  have h := (abs_le.mp (roundFloat64_abs_sub_le q hq)).1
  have h2 : q / 2 ^ 53 < q := by
    rw [div_lt_iff₀ (by positivity)]
    have : (1 : ℚ) < 2 ^ 53 := by norm_num
    nlinarith
  linarith

/-! ## Time conversion and sample results -/

/-- Go's `time.Unix(sec, 0)`: no carry, the wall word holds zero nanoseconds. -/
theorem timeUnix_zero_nsec (sec : Int64) :
    timeUnix sec ⟨0, by decide⟩
      = { wall := ⟨0, by decide⟩, ext := wrapInt64 (sec.val + unixToInternal),
          loc := Location.Local } := by
  simp [timeUnix]

/-- The loop appends one result for each value of the counter below the count. -/
theorem appendSampleResults_eq (n : Nat) : ∀ (count i : Int64) (acc : List OperationResult),
    (count.val - i.val).toNat = n →
    appendSampleResults count i acc
      = acc ++ List.replicate n
          { Code := OperationResultCodeOpInner, Tr := some OperationResultTr.zero } := by
  induction n with
  | zero =>
    intro count i acc h
    rw [appendSampleResults]
    have : ¬ i.val < count.val := by omega
    simp [this]
  | succ n ih =>
    intro count i acc h
    rw [appendSampleResults]
    have hlt : i.val < count.val := by omega
    have hc := count.property
    have hi := i.property
    have hincr : i.incr.val = i.val + 1 := by
      simp only [Int64.incr, wrapInt64]
      omega
    rw [if_pos hlt, ih count i.incr _ (by rw [hincr]; omega)]
    simp [List.replicate_succ]

/-- The slice built by `CreateSampleResultMeta`. -/
theorem CreateSampleResultMeta_results (successful : Bool) (count : Int64) :
    (CreateSampleResultMeta successful count).Result.Result.Result.Results
      = some (List.replicate count.val.toNat
          { Code := OperationResultCodeOpInner, Tr := some OperationResultTr.zero }) := by
  unfold CreateSampleResultMeta
  simp only []
  rw [appendSampleResults_eq count.val.toNat count ⟨0, by decide⟩ [] (by simp)]
  simp

/-! ## Shape of the result -/

section Lemmas

variable {AccountId Asset : Type}

/-- On a snapshot that holds an offer the source function is the validator on that offer. -/
theorem TransformOffer_of_offer (xdr : XdrLib AccountId Asset) (c : Change AccountId Asset)
    (e : LedgerEntry AccountId Asset) (o : OfferEntry AccountId Asset)
    (hsel : selectSnapshot c = some e) (hdata : e.Data = LedgerEntryData.Offer o) :
    TransformOffer xdr c = buildOutput xdr o e.LastModifiedLedgerSeq := by
  unfold selectSnapshot at hsel
  simp only [TransformOffer, hsel, hdata, LedgerEntryData.GetOffer, buildOutput, computePrice]

/-- The source function is the extract-and-validate pipeline on the selected snapshot. -/
theorem TransformOffer_eq_validate (xdr : XdrLib AccountId Asset) (c : Change AccountId Asset) :
    TransformOffer xdr c = validateSnapshot xdr (selectSnapshot c) := by
  cases hsel : selectSnapshot c with
  | none =>
    unfold selectSnapshot at hsel
    simp only [TransformOffer, hsel, validateSnapshot]
  | some e =>
    cases hdata : e.Data with
    | Offer o =>
      rw [TransformOffer_of_offer xdr c e o hsel hdata]
      simp only [validateSnapshot, extractOffer, hdata, LedgerEntryData.GetOffer]
    | Account =>
      unfold selectSnapshot at hsel
      simp only [TransformOffer, hsel, validateSnapshot, extractOffer, hdata,
        LedgerEntryData.GetOffer]
    | Trustline =>
      unfold selectSnapshot at hsel
      simp only [TransformOffer, hsel, validateSnapshot, extractOffer, hdata,
        LedgerEntryData.GetOffer]
    | Data =>
      unfold selectSnapshot at hsel
      simp only [TransformOffer, hsel, validateSnapshot, extractOffer, hdata,
        LedgerEntryData.GetOffer]

/-- The validator succeeds on an offer that passes every check. -/
theorem buildOutput_ok (xdr : XdrLib AccountId Asset) (o : OfferEntry AccountId Asset)
    (seq : Uint32) (addr selling buying : String)
    (haddr : xdr.GetAddress o.SellerId = .ok addr) (hid : 0 ≤ o.OfferId.val)
    (hsell : xdr.MarshalBase64 o.Selling = .ok selling)
    (hbuy : xdr.MarshalBase64 o.Buying = .ok buying)
    (hamt : 0 ≤ o.Amount.val) (hn : 0 ≤ o.Price.N.val) (hd : 0 < o.Price.D.val) :
    buildOutput xdr o seq = (assembled o seq addr selling buying, none) := by
  have hflags : ¬ o.Flags.val < 0 := not_lt.mpr o.Flags.property.1
  have hseq : ¬ seq.toInt64.val < 0 := not_lt.mpr seq.property.1
  simp only [buildOutput, haddr, hsell, hbuy, not_lt.mpr hid, not_lt.mpr hamt, not_lt.mpr hn,
    ne_of_gt hd, not_lt.mpr (le_of_lt hd), hflags, hseq, if_false, assembled]

/-- When the validator returns no error, every check has passed. -/
theorem buildOutput_inv (xdr : XdrLib AccountId Asset) (o : OfferEntry AccountId Asset)
    (seq : Uint32) (h : (buildOutput xdr o seq).2 = none) :
    ∃ addr selling buying, xdr.GetAddress o.SellerId = .ok addr ∧ 0 ≤ o.OfferId.val
      ∧ xdr.MarshalBase64 o.Selling = .ok selling ∧ xdr.MarshalBase64 o.Buying = .ok buying
      ∧ 0 ≤ o.Amount.val ∧ 0 ≤ o.Price.N.val ∧ 0 < o.Price.D.val := by
  unfold buildOutput at h
  cases haddr : xdr.GetAddress o.SellerId with
  | error err => simp [haddr] at h
  | ok addr =>
    simp only [haddr] at h
    by_cases hid : o.OfferId.val < 0
    · simp [hid] at h
    simp only [hid, if_false] at h
    cases hsell : xdr.MarshalBase64 o.Selling with
    | error err => simp [hsell] at h
    | ok selling =>
      cases hbuy : xdr.MarshalBase64 o.Buying with
      | error err => simp [hsell, hbuy] at h
      | ok buying =>
        simp only [hsell, hbuy] at h
        by_cases hamt : o.Amount.val < 0
        · simp [hid, hamt] at h
        by_cases hn : o.Price.N.val < 0
        · simp [hid, hamt, hn] at h
        by_cases hd0 : o.Price.D.val = 0
        · simp [hid, hamt, hn, hd0] at h
        by_cases hd : o.Price.D.val < 0
        · simp [hid, hamt, hn, hd0, hd] at h
        exact ⟨addr, selling, buying, rfl, not_lt.mp hid, rfl, rfl, not_lt.mp hamt,
          not_lt.mp hn, lt_of_le_of_ne (not_lt.mp hd) (Ne.symm hd0)⟩

/-- The validator returns either an error with the zero-value record, or no error. -/
theorem buildOutput_error_or_ok (xdr : XdrLib AccountId Asset) (o : OfferEntry AccountId Asset)
    (seq : Uint32) :
    (∃ msg, buildOutput xdr o seq = (OfferOutput.zero, some msg))
      ∨ (buildOutput xdr o seq).2 = none := by
  unfold buildOutput
  cases xdr.GetAddress o.SellerId with
  | error err => exact Or.inl ⟨err, rfl⟩
  | ok addr =>
    simp only []
    by_cases hid : o.OfferId.val < 0
    · simp only [hid, if_true]
      exact Or.inl ⟨_, rfl⟩
    simp only [hid, if_false]
    cases xdr.MarshalBase64 o.Selling with
    | error err => exact Or.inl ⟨err, rfl⟩
    | ok selling =>
      cases xdr.MarshalBase64 o.Buying with
      | error err => exact Or.inl ⟨err, rfl⟩
      | ok buying =>
        simp only []
        split_ifs
        all_goals first | exact Or.inl ⟨_, rfl⟩ | exact Or.inr rfl

/-- When `TransformOffer` returns no error, the selected snapshot holds an offer. -/
theorem TransformOffer_inv (xdr : XdrLib AccountId Asset) (c : Change AccountId Asset)
    (h : (TransformOffer xdr c).2 = none) :
    ∃ e o, selectSnapshot c = some e ∧ e.Data = LedgerEntryData.Offer o := by
  rw [TransformOffer_eq_validate] at h
  cases hsel : selectSnapshot c with
  | none => simp [hsel, validateSnapshot] at h
  | some e =>
    cases hdata : e.Data with
    | Offer o => exact ⟨e, o, rfl, hdata⟩
    | Account => simp [hsel, validateSnapshot, extractOffer, hdata, LedgerEntryData.GetOffer] at h
    | Trustline =>
      simp [hsel, validateSnapshot, extractOffer, hdata, LedgerEntryData.GetOffer] at h
    | Data => simp [hsel, validateSnapshot, extractOffer, hdata, LedgerEntryData.GetOffer] at h

/-- When `TransformOffer` returns no error, its record is the one assembled from the offer
of the selected snapshot, and that offer passes every check. -/
theorem TransformOffer_success (xdr : XdrLib AccountId Asset) (c : Change AccountId Asset)
    (h : (TransformOffer xdr c).2 = none) :
    ∃ e o addr selling buying, selectSnapshot c = some e ∧ e.Data = LedgerEntryData.Offer o
      ∧ xdr.GetAddress o.SellerId = .ok addr ∧ 0 ≤ o.OfferId.val
      ∧ xdr.MarshalBase64 o.Selling = .ok selling ∧ xdr.MarshalBase64 o.Buying = .ok buying
      ∧ 0 ≤ o.Amount.val ∧ 0 ≤ o.Price.N.val ∧ 0 < o.Price.D.val
      ∧ TransformOffer xdr c = (assembled o e.LastModifiedLedgerSeq addr selling buying, none) := by
  obtain ⟨e, o, hsel, hdata⟩ := TransformOffer_inv xdr c h
  have heq := TransformOffer_of_offer xdr c e o hsel hdata
  rw [heq] at h
  obtain ⟨addr, selling, buying, haddr, hid, hsell, hbuy, hamt, hn, hd⟩ :=
    buildOutput_inv xdr o e.LastModifiedLedgerSeq h
  exact ⟨e, o, addr, selling, buying, hsel, hdata, haddr, hid, hsell, hbuy, hamt, hn, hd,
    heq.trans (buildOutput_ok xdr o _ addr selling buying haddr hid hsell hbuy hamt hn hd)⟩

/-- Dropping the `return` statement from the traced result gives the result of
`TransformOffer`. -/
theorem TransformOfferTraced_erase (xdr : XdrLib AccountId Asset) (c : Change AccountId Asset) :
    TransformOffer xdr c
      = ((TransformOfferTraced xdr c).1, (TransformOfferTraced xdr c).2.map Prod.snd) := by
  unfold TransformOffer TransformOfferTraced
  simp only []
  repeat (first | rfl | split)

/-- An error of the traced function is the error of `TransformOffer`. -/
theorem TransformOffer_of_traced (xdr : XdrLib AccountId Asset) (c : Change AccountId Asset)
    (site : ReturnSite) (msg : String)
    (h : TransformOfferTraced xdr c = (OfferOutput.zero, some (site, msg))) :
    TransformOffer xdr c = (OfferOutput.zero, some msg) := by
  rw [TransformOfferTraced_erase, h]
  rfl

/-- No error comes from the `return` statements of the flags check and of the ledger
sequence check. -/
theorem TransformOfferTraced_site (xdr : XdrLib AccountId Asset) (c : Change AccountId Asset)
    (site : ReturnSite) (msg : String) (h : (TransformOfferTraced xdr c).2 = some (site, msg)) :
    site ≠ ReturnSite.flagsNegative ∧ site ≠ ReturnSite.lastModifiedNegative := by
  unfold TransformOfferTraced at h
  simp only [] at h
  split at h
  · simp only [Option.some.injEq, Prod.mk.injEq] at h
    rw [← h.1]; exact ⟨by decide, by decide⟩
  · rename_i e _
    split at h
    · simp only [Option.some.injEq, Prod.mk.injEq] at h
      rw [← h.1]; exact ⟨by decide, by decide⟩
    · rename_i o _
      have hf : ¬ o.Flags.val < 0 := not_lt.mpr o.Flags.property.1
      have hs : ¬ e.LastModifiedLedgerSeq.toInt64.val < 0 :=
        not_lt.mpr e.LastModifiedLedgerSeq.property.1
      simp only [hf, hs, if_false] at h
      repeat' split at h
      all_goals first
        | (simp only [Option.some.injEq, Prod.mk.injEq] at h
           rw [← h.1]; exact ⟨by decide, by decide⟩)
        | exact absurd h (by simp)

/-- The checks on an offer payload in their order, each with the `return` statement that
reports its failure. -/
theorem TransformOfferTraced_of_offer (xdr : XdrLib AccountId Asset)
    (c : Change AccountId Asset) (e : LedgerEntry AccountId Asset)
    (o : OfferEntry AccountId Asset)
    (hsel : selectSnapshot c = some e) (hdata : e.Data = LedgerEntryData.Offer o) :
    TransformOfferTraced xdr c =
      match xdr.GetAddress o.SellerId with
      | .error err => (OfferOutput.zero, some (ReturnSite.sellerAddress, err))
      | .ok addr =>
        if o.OfferId.val < 0 then
          (OfferOutput.zero,
            some (ReturnSite.offerIdNegative, msgOfferIdNegative o.OfferId.val addr))
        else
          match xdr.MarshalBase64 o.Selling with
          | .error err => (OfferOutput.zero, some (ReturnSite.sellingAsset, err))
          | .ok selling =>
            match xdr.MarshalBase64 o.Buying with
            | .error err => (OfferOutput.zero, some (ReturnSite.buyingAsset, err))
            | .ok buying =>
              if o.Amount.val < 0 then
                (OfferOutput.zero,
                  some (ReturnSite.amountNegative,
                    msgAmountNegative o.Amount.val o.OfferId.val))
              else if o.Price.N.val < 0 then
                (OfferOutput.zero,
                  some (ReturnSite.numeratorNegative,
                    msgNumeratorNegative o.Price.N.val o.OfferId.val))
              else if o.Price.D.val = 0 then
                (OfferOutput.zero,
                  some (ReturnSite.denominatorZero, msgDenominatorZero o.OfferId.val))
              else if o.Price.D.val < 0 then
                (OfferOutput.zero,
                  some (ReturnSite.denominatorNegative,
                    msgDenominatorNegative o.Price.D.val o.OfferId.val))
              else (assembled o e.LastModifiedLedgerSeq addr selling buying, none) := by
  have hf : ¬ o.Flags.val < 0 := not_lt.mpr o.Flags.property.1
  have hs : ¬ e.LastModifiedLedgerSeq.toInt64.val < 0 :=
    not_lt.mpr e.LastModifiedLedgerSeq.property.1
  unfold selectSnapshot at hsel
  simp only [TransformOfferTraced, hsel, hdata, LedgerEntryData.GetOffer, hf, hs, if_false,
    msgOfferIdNegative, msgAmountNegative, msgNumeratorNegative, msgDenominatorZero,
    msgDenominatorNegative, assembled, computePrice]

/-- The nil check of lines 17-19: were the selected snapshot absent, the zero-value record
and the message "Ledger entry is nil" would be returned. -/
theorem TransformOffer_nil_selected (xdr : XdrLib AccountId Asset)
    (c : Change AccountId Asset) (hsel : selectSnapshot c = none) :
    TransformOffer xdr c = (OfferOutput.zero, some "Ledger entry is nil") := by
  rw [TransformOffer_eq_validate, hsel]
  rfl

/-- A change that the ingestion package hands over has its selected snapshot. -/
theorem Receivable_selected (c : Change AccountId Asset) (hrec : c.Receivable) :
    ∃ e, selectSnapshot c = some e := by
  obtain ⟨kind, pre, post⟩ := c
  unfold Change.Receivable at hrec
  cases pre <;> cases post <;> cases kind <;>
    simp [changeTypeOf] at hrec <;> exact ⟨_, rfl⟩

/-- When the selected snapshot is present, no error comes from the nil check. -/
theorem TransformOfferTraced_site_present (xdr : XdrLib AccountId Asset)
    (c : Change AccountId Asset) (e : LedgerEntry AccountId Asset)
    (hsel : selectSnapshot c = some e) (site : ReturnSite) (msg : String)
    (h : (TransformOfferTraced xdr c).2 = some (site, msg)) :
    site ≠ ReturnSite.nilEntry := by
  unfold selectSnapshot at hsel
  unfold TransformOfferTraced at h
  simp only [hsel] at h
  repeat' split at h
  all_goals first
    | (simp only [Option.some.injEq, Prod.mk.injEq] at h
       rw [← h.1]; decide)
    | exact absurd h (by simp)

/-- On every failure the record is the zero-value record. -/
theorem TransformOffer_error_zero (xdr : XdrLib AccountId Asset) (c : Change AccountId Asset)
    (h : (TransformOffer xdr c).2 ≠ none) : (TransformOffer xdr c).1 = OfferOutput.zero := by
  rw [TransformOffer_eq_validate] at h ⊢
  cases hsel : selectSnapshot c with
  | none => rfl
  | some e =>
    rw [hsel] at h
    unfold validateSnapshot at h ⊢
    simp only [] at h ⊢
    cases hx : extractOffer xdr e with
    | error err => rfl
    | ok o =>
      rw [hx] at h
      simp only [] at h ⊢
      rcases buildOutput_error_or_ok xdr o e.LastModifiedLedgerSeq with ⟨msg, hm⟩ | hm
      · rw [hm]
      · exact absurd hm h

/-- Whether the validator fails, and with which error, does not depend on the flags nor on
the ledger sequence. -/
theorem buildOutput_error_indep (xdr : XdrLib AccountId Asset) (o : OfferEntry AccountId Asset)
    (flags : Uint32) (seq seq' : Uint32) :
    (buildOutput xdr (o.withFlags flags) seq').2 = (buildOutput xdr o seq).2 := by
  have hf : ¬ o.Flags.val < 0 := not_lt.mpr o.Flags.property.1
  have hf' : ¬ flags.val < 0 := not_lt.mpr flags.property.1
  have hs : ¬ seq.toInt64.val < 0 := not_lt.mpr seq.property.1
  have hs' : ¬ seq'.toInt64.val < 0 := not_lt.mpr seq'.property.1
  simp only [buildOutput, OfferEntry.withFlags, hf, hf', hs, hs', if_false]
  cases xdr.GetAddress o.SellerId with
  | error err => rfl
  | ok addr =>
    simp only []
    by_cases hid : o.OfferId.val < 0
    · simp only [hid, if_true]
    simp only [hid, if_false]
    cases xdr.MarshalBase64 o.Selling with
    | error err => rfl
    | ok selling =>
      cases xdr.MarshalBase64 o.Buying with
      | error err => rfl
      | ok buying =>
        simp only []
        split_ifs <;> rfl

/-- Changing the flags does not change which snapshot is selected. -/
theorem selectSnapshot_withFlags (c : Change AccountId Asset) (flags : Uint32) :
    selectSnapshot (c.withFlags flags) = (selectSnapshot c).map (fun e => e.withFlags flags) := by
  unfold selectSnapshot Change.withFlags
  simp only []
  split_ifs <;> rfl

/-- Changing the ledger sequence does not change which snapshot is selected. -/
theorem selectSnapshot_withSeq (c : Change AccountId Asset) (seq : Uint32) :
    selectSnapshot (c.withSeq seq)
      = (selectSnapshot c).map (fun e => { e with LastModifiedLedgerSeq := seq }) := by
  unfold selectSnapshot Change.withSeq
  simp only []
  split_ifs <;> rfl

/-- The error of `TransformOffer` does not depend on the flags. -/
theorem TransformOffer_withFlags_error (xdr : XdrLib AccountId Asset)
    (c : Change AccountId Asset) (flags : Uint32) :
    (TransformOffer xdr (c.withFlags flags)).2 = (TransformOffer xdr c).2 := by
  rw [TransformOffer_eq_validate, TransformOffer_eq_validate, selectSnapshot_withFlags]
  cases selectSnapshot c with
  | none => rfl
  | some e =>
    cases hdata : e.Data with
    | Offer o =>
      have h1 : (e.withFlags flags) = { e with Data := .Offer (o.withFlags flags) } := by
        simp only [LedgerEntry.withFlags, hdata]
      simp only [Option.map, h1, validateSnapshot, extractOffer, LedgerEntryData.GetOffer, hdata]
      exact buildOutput_error_indep xdr o flags _ _
    | Account =>
      have h1 : (e.withFlags flags) = e := by simp only [LedgerEntry.withFlags, hdata]
      simp only [Option.map, h1]
    | Trustline =>
      have h1 : (e.withFlags flags) = e := by simp only [LedgerEntry.withFlags, hdata]
      simp only [Option.map, h1]
    | Data =>
      have h1 : (e.withFlags flags) = e := by simp only [LedgerEntry.withFlags, hdata]
      simp only [Option.map, h1]

/-- The error of `TransformOffer` does not depend on the ledger sequence. -/
theorem TransformOffer_withSeq_error (xdr : XdrLib AccountId Asset)
    (c : Change AccountId Asset) (seq : Uint32) :
    (TransformOffer xdr (c.withSeq seq)).2 = (TransformOffer xdr c).2 := by
  rw [TransformOffer_eq_validate, TransformOffer_eq_validate, selectSnapshot_withSeq]
  cases selectSnapshot c with
  | none => rfl
  | some e =>
    cases hdata : e.Data with
    | Offer o =>
      simp only [Option.map, validateSnapshot, extractOffer, LedgerEntryData.GetOffer, hdata]
      have h := buildOutput_error_indep xdr o o.Flags e.LastModifiedLedgerSeq seq
      exact h
    | Account =>
      simp only [Option.map, validateSnapshot, extractOffer, LedgerEntryData.GetOffer, hdata,
        LedgerEntryData.Type]
    | Trustline =>
      simp only [Option.map, validateSnapshot, extractOffer, LedgerEntryData.GetOffer, hdata,
        LedgerEntryData.Type]
    | Data =>
      simp only [Option.map, validateSnapshot, extractOffer, LedgerEntryData.GetOffer, hdata,
        LedgerEntryData.Type]

end Lemmas

/-! ## Which snapshot is read -/

section Classifier

variable {AccountId Asset : Type}

/-- C1: for every ledger change the result of `TransformOffer` is the result of the
extract-and-validate pipeline on exactly one snapshot, `Pre` when the change kind is
`Removed` and `Post` for every other kind. -/
theorem transformOffer_reads_selected_snapshot (xdr : XdrLib AccountId Asset)
    (c : Change AccountId Asset) :
    TransformOffer xdr c =
        validateSnapshot xdr
          (if c.LedgerEntryChangeType = LedgerEntryChangeType.Removed then c.Pre else c.Post)
      ∧ (∀ pre post : Option (LedgerEntry AccountId Asset),
          TransformOffer xdr ⟨LedgerEntryChangeType.Removed, pre, post⟩
              = validateSnapshot xdr pre
            ∧ TransformOffer xdr ⟨LedgerEntryChangeType.Created, pre, post⟩
              = validateSnapshot xdr post
            ∧ TransformOffer xdr ⟨LedgerEntryChangeType.Updated, pre, post⟩
              = validateSnapshot xdr post
            ∧ TransformOffer xdr ⟨LedgerEntryChangeType.State, pre, post⟩
              = validateSnapshot xdr post) := by
  refine ⟨TransformOffer_eq_validate xdr c, fun pre post => ⟨?_, ?_, ?_, ?_⟩⟩ <;>
    rw [TransformOffer_eq_validate] <;> rfl

/-- C2, as the code has it: a change of kind `Removed`, as the ingestion package classifies
it, has its `Pre` snapshot and no `Post` snapshot, and the result of `TransformOffer` on it
is the result of validating `Pre`, so that two such changes with the same `Pre` give the same
result. A change with both snapshots is an update, and on it `TransformOffer` reads `Post`. -/
theorem transformOffer_removal_reads_pre (xdr : XdrLib AccountId Asset)
    (c : Change AccountId Asset) (hrec : c.Receivable)
    (hkind : c.LedgerEntryChangeType = LedgerEntryChangeType.Removed) :
    c.Post = none
      ∧ (∃ e, c.Pre = some e)
      ∧ TransformOffer xdr c = validateSnapshot xdr c.Pre
      ∧ (∀ other : Change AccountId Asset, other.Receivable →
          other.LedgerEntryChangeType = LedgerEntryChangeType.Removed →
          other.Pre = c.Pre → TransformOffer xdr other = TransformOffer xdr c)
      ∧ (∀ e post : LedgerEntry AccountId Asset,
          changeTypeOf (some e) (some post) = some LedgerEntryChangeType.Updated
            ∧ TransformOfferOn xdr (some e) (some post)
              = some (validateSnapshot xdr (some post))) := by
  have hpre : TransformOffer xdr c = validateSnapshot xdr c.Pre := by
    rw [TransformOffer_eq_validate]
    simp only [selectSnapshot, hkind, if_true]
  refine ⟨?_, ?_, hpre, fun other _ hk hp => ?_, fun e post => ⟨rfl, ?_⟩⟩
  · unfold Change.Receivable at hrec
    rw [hkind] at hrec
    cases hp : c.Pre <;> cases hq : c.Post <;> simp [changeTypeOf, hp, hq] at hrec
    rfl
  · unfold Change.Receivable at hrec
    rw [hkind] at hrec
    cases hp : c.Pre <;> cases hq : c.Post <;> simp [changeTypeOf, hp, hq] at hrec
    exact ⟨_, rfl⟩
  · rw [hpre, TransformOffer_eq_validate]
    simp only [selectSnapshot, hk, if_true, hp]
  · simp only [TransformOfferOn, changeTypeOf]
    rw [TransformOffer_eq_validate]
    rfl

/-- Witness for C2: the removal of the sample offer, `Pre` present and `Post` absent. -/
theorem transformOffer_removal_reads_pre_witness :
    (⟨LedgerEntryChangeType.Removed, some sampleEntry, none⟩ : Change String String).Post
        = none
      ∧ TransformOffer sampleXdr ⟨LedgerEntryChangeType.Removed, some sampleEntry, none⟩
        = validateSnapshot sampleXdr (some sampleEntry) :=
  ⟨(transformOffer_removal_reads_pre sampleXdr
      ⟨LedgerEntryChangeType.Removed, some sampleEntry, none⟩ (by decide) rfl).1,
    (transformOffer_removal_reads_pre sampleXdr
      ⟨LedgerEntryChangeType.Removed, some sampleEntry, none⟩ (by decide) rfl).2.2.1⟩

/-- Counterexample for C2 as stated: with the same `Pre`, the sample offer, the result
depends on `Post`. With no `Post` the change is a removal and succeeds; with an account
entry as `Post` the change is an update, `Post` is read and the wrong-variant error is
returned. -/
theorem transformOffer_removed_post_counterexample :
    changeTypeOf (some sampleEntry) (none : Option (LedgerEntry String String))
        = some LedgerEntryChangeType.Removed
      ∧ changeTypeOf (some sampleEntry) (some sampleAccountEntry)
        = some LedgerEntryChangeType.Updated
      ∧ (TransformOfferOn sampleXdr (some sampleEntry) none).map Prod.snd = some none
      ∧ (TransformOfferOn sampleXdr (some sampleEntry) (some sampleAccountEntry)).map Prod.snd
        = some (some
            "Could not extract offer data from ledger entry; actual type is LedgerEntryTypeAccount")
      ∧ TransformOfferOn sampleXdr (some sampleEntry) none
        ≠ TransformOfferOn sampleXdr (some sampleEntry) (some sampleAccountEntry) := by
  refine ⟨rfl, rfl, by decide, by decide, fun h => ?_⟩
  have h2 := congrArg (Option.map Prod.snd) h
  revert h2
  decide

end Classifier

/-! ## Successful transformations -/

section Success

variable {AccountId Asset : Type}

/-- C3: for every change of a kind other than `Removed` (a creation or an update) whose
`Post` snapshot holds an offer with a resolvable seller, encodable assets, offer id, amount
and numerator not negative and a positive denominator, `TransformOffer` succeeds and every
field of the record equals its input, the ledger sequence being widened to `int64`. -/
theorem transformOffer_valid_offer_fields (xdr : XdrLib AccountId Asset)
    (c : Change AccountId Asset) (e : LedgerEntry AccountId Asset)
    (o : OfferEntry AccountId Asset) (addr selling buying : String)
    (hkind : c.LedgerEntryChangeType ≠ LedgerEntryChangeType.Removed)
    (hpost : c.Post = some e) (hdata : e.Data = LedgerEntryData.Offer o)
    (haddr : xdr.GetAddress o.SellerId = .ok addr) (hid : 0 ≤ o.OfferId.val)
    (hsell : xdr.MarshalBase64 o.Selling = .ok selling)
    (hbuy : xdr.MarshalBase64 o.Buying = .ok buying)
    (hamt : 0 ≤ o.Amount.val) (hn : 0 ≤ o.Price.N.val) (hd : 0 < o.Price.D.val) :
    (TransformOffer xdr c).2 = none
      ∧ (TransformOffer xdr c).1.SellerID = addr
      ∧ (TransformOffer xdr c).1.OfferID = o.OfferId
      ∧ (TransformOffer xdr c).1.SellingAsset = selling
      ∧ (TransformOffer xdr c).1.BuyingAsset = buying
      ∧ (TransformOffer xdr c).1.Amount = o.Amount
      ∧ (TransformOffer xdr c).1.PriceN = o.Price.N
      ∧ (TransformOffer xdr c).1.PriceD = o.Price.D
      ∧ (TransformOffer xdr c).1.Flags = o.Flags
      ∧ (TransformOffer xdr c).1.LastModifiedLedger.val = e.LastModifiedLedgerSeq.val := by
  have hsel : selectSnapshot c = some e := by
    simp only [selectSnapshot, hkind, if_false, hpost]
  rw [TransformOffer_of_offer xdr c e o hsel hdata,
    buildOutput_ok xdr o _ addr selling buying haddr hid hsell hbuy hamt hn hd]
  exact ⟨rfl, rfl, rfl, rfl, rfl, rfl, rfl, rfl, rfl, rfl⟩

/-- Witness for C3: the creation of the sample offer. -/
theorem transformOffer_valid_offer_fields_witness :
    (TransformOffer sampleXdr sampleCreated).2 = none
      ∧ (TransformOffer sampleXdr sampleCreated).1.SellerID = "GSELLER"
      ∧ (TransformOffer sampleXdr sampleCreated).1.OfferID = sampleOffer.OfferId
      ∧ (TransformOffer sampleXdr sampleCreated).1.SellingAsset = "native"
      ∧ (TransformOffer sampleXdr sampleCreated).1.BuyingAsset = "USD"
      ∧ (TransformOffer sampleXdr sampleCreated).1.Amount = sampleOffer.Amount
      ∧ (TransformOffer sampleXdr sampleCreated).1.PriceN = sampleOffer.Price.N
      ∧ (TransformOffer sampleXdr sampleCreated).1.PriceD = sampleOffer.Price.D
      ∧ (TransformOffer sampleXdr sampleCreated).1.Flags = sampleOffer.Flags
      ∧ (TransformOffer sampleXdr sampleCreated).1.LastModifiedLedger.val
          = sampleEntry.LastModifiedLedgerSeq.val :=
  transformOffer_valid_offer_fields sampleXdr sampleCreated sampleEntry sampleOffer
    "GSELLER" "native" "USD" (by decide) rfl rfl rfl (by decide) rfl rfl (by decide)
    (by decide) (by decide)

/-- C4: whenever `TransformOffer` succeeds the record has `OfferID ≥ 0`, `Amount ≥ 0`,
`PriceN ≥ 0`, `PriceD > 0` and `LastModifiedLedger ≥ 0`. -/
theorem transformOffer_success_invariants (xdr : XdrLib AccountId Asset)
    (c : Change AccountId Asset) (h : (TransformOffer xdr c).2 = none) :
    0 ≤ (TransformOffer xdr c).1.OfferID.val
      ∧ 0 ≤ (TransformOffer xdr c).1.Amount.val
      ∧ 0 ≤ (TransformOffer xdr c).1.PriceN.val
      ∧ 0 < (TransformOffer xdr c).1.PriceD.val
      ∧ 0 ≤ (TransformOffer xdr c).1.LastModifiedLedger.val := by
  obtain ⟨e, o, addr, selling, buying, -, -, -, hid, -, -, hamt, hn, hd, heq⟩ :=
    TransformOffer_success xdr c h
  rw [heq]
  exact ⟨hid, hamt, hn, hd, e.LastModifiedLedgerSeq.property.1⟩

/-- Witness for C4: the creation of the sample offer succeeds and its record is in range. -/
theorem transformOffer_success_invariants_witness :
    (TransformOffer sampleXdr sampleCreated).2 = none
      ∧ 0 ≤ (TransformOffer sampleXdr sampleCreated).1.OfferID.val
      ∧ 0 ≤ (TransformOffer sampleXdr sampleCreated).1.Amount.val
      ∧ 0 ≤ (TransformOffer sampleXdr sampleCreated).1.PriceN.val
      ∧ 0 < (TransformOffer sampleXdr sampleCreated).1.PriceD.val
      ∧ 0 ≤ (TransformOffer sampleXdr sampleCreated).1.LastModifiedLedger.val :=
  ⟨by decide, transformOffer_success_invariants sampleXdr sampleCreated (by decide)⟩

/-- C7: whenever `TransformOffer` succeeds on an offer whose price numerator is `0`, the
`Price` of the record is exactly `0.0`. -/
theorem transformOffer_price_zero_numerator (xdr : XdrLib AccountId Asset)
    (c : Change AccountId Asset) (e : LedgerEntry AccountId Asset)
    (o : OfferEntry AccountId Asset)
    (hsel : selectSnapshot c = some e) (hdata : e.Data = LedgerEntryData.Offer o)
    (hok : (TransformOffer xdr c).2 = none) (hn : o.Price.N.val = 0) :
    (TransformOffer xdr c).1.Price = 0
      ∧ (TransformOffer xdr c).1.PriceN.val = 0 ∧ 0 < (TransformOffer xdr c).1.PriceD.val := by
  obtain ⟨e', o', addr, selling, buying, hsel', hdata', -, -, -, -, -, -, hd, heq⟩ :=
    TransformOffer_success xdr c hok
  have he : e' = e := Option.some.inj (hsel'.symm.trans hsel)
  subst he
  have ho : o' = o := LedgerEntryData.Offer.inj (hdata'.symm.trans hdata)
  subst ho
  rw [heq]
  refine ⟨?_, hn, hd⟩
  simp only [assembled, computePrice, hn, lt_irrefl, if_false]

/-- Witness for C7: the sample offer with the price `0/2`. -/
theorem transformOffer_price_zero_numerator_witness :
    (TransformOffer sampleXdr
        (sampleCreatedWithPrice ⟨0, by decide⟩ ⟨2, by decide⟩)).2 = none
      ∧ (TransformOffer sampleXdr
        (sampleCreatedWithPrice ⟨0, by decide⟩ ⟨2, by decide⟩)).1.Price = 0 :=
  ⟨by decide,
    (transformOffer_price_zero_numerator sampleXdr
      (sampleCreatedWithPrice ⟨0, by decide⟩ ⟨2, by decide⟩)
      (sampleEntryWithPrice ⟨0, by decide⟩ ⟨2, by decide⟩)
      (sampleOfferWithPrice ⟨0, by decide⟩ ⟨2, by decide⟩) rfl rfl (by decide) rfl).1⟩

/-- C8: whenever `TransformOffer` succeeds on an offer whose price numerator is positive, the
`Price` of the record is the `float64` quotient of `PriceN` and `PriceD` of the same record,
which are the numerator and the denominator of the offer; that double is the exact quotient
rounded, at most `2^(-53)` of it away. -/
theorem transformOffer_price_quotient (xdr : XdrLib AccountId Asset)
    (c : Change AccountId Asset) (e : LedgerEntry AccountId Asset)
    (o : OfferEntry AccountId Asset)
    (hsel : selectSnapshot c = some e) (hdata : e.Data = LedgerEntryData.Offer o)
    (hok : (TransformOffer xdr c).2 = none) (hn : 0 < o.Price.N.val) :
    (TransformOffer xdr c).1.Price
        = Float64.div (TransformOffer xdr c).1.PriceN.toFloat64
            (TransformOffer xdr c).1.PriceD.toFloat64
      ∧ (TransformOffer xdr c).1.PriceN = o.Price.N
      ∧ (TransformOffer xdr c).1.PriceD = o.Price.D
      ∧ 0 < o.Price.D.val
      ∧ |(TransformOffer xdr c).1.Price - (o.Price.N.val : ℚ) / (o.Price.D.val : ℚ)|
          ≤ (o.Price.N.val : ℚ) / (o.Price.D.val : ℚ) / 2 ^ 53 := by
  obtain ⟨e', o', addr, selling, buying, hsel', hdata', -, -, -, -, -, -, hd, heq⟩ :=
    TransformOffer_success xdr c hok
  have he : e' = e := Option.some.inj (hsel'.symm.trans hsel)
  subst he
  have ho : o' = o := LedgerEntryData.Offer.inj (hdata'.symm.trans hdata)
  subst ho
  rw [heq]
  have hprice : computePrice o'.Price.N o'.Price.D
      = Float64.div o'.Price.N.toFloat64 o'.Price.D.toFloat64 := by
    simp only [computePrice, hn, if_true]
  refine ⟨hprice, rfl, rfl, hd, ?_⟩
  show |computePrice o'.Price.N o'.Price.D - _| ≤ _
  rw [hprice]
  exact roundFloat64_abs_sub_le _ (int32_quotient_normal _ _ hn hd)

/-- Witness for C8: offer id `42`, amount `1000000000`, price `3/2` gives `Price == 1.5`. -/
theorem transformOffer_price_quotient_witness :
    sampleOffer.OfferId.val = 42 ∧ sampleOffer.Amount.val = 1000000000
      ∧ sampleOffer.Price.N.val = 3 ∧ sampleOffer.Price.D.val = 2
      ∧ (TransformOffer sampleXdr sampleCreated).2 = none
      ∧ (TransformOffer sampleXdr sampleCreated).1.Price = 3 / 2 := by
  refine ⟨rfl, rfl, rfl, rfl, by decide, ?_⟩
  have h := (transformOffer_price_quotient sampleXdr sampleCreated sampleEntry sampleOffer
    rfl rfl (by decide) (by decide)).1
  rw [h]
  have hq : Float64.div (TransformOffer sampleXdr sampleCreated).1.PriceN.toFloat64
      (TransformOffer sampleXdr sampleCreated).1.PriceD.toFloat64 = roundFloat64 (3 / 2) := by
    have h3 : (TransformOffer sampleXdr sampleCreated).1.PriceN.toFloat64 = 3 := by
      show (((3 : ℤ)) : ℚ) = 3
      norm_num
    have h2 : (TransformOffer sampleXdr sampleCreated).1.PriceD.toFloat64 = 2 := by
      show (((2 : ℤ)) : ℚ) = 2
      norm_num
    rw [h3, h2, Float64.div]
  rw [hq, roundFloat64_three_halves]

end Success

/-! ## Failing transformations -/

section Failure

variable {AccountId Asset : Type}

/-- C5: for every change whose selected snapshot holds an offer entry with a negative offer
id, a negative amount or a negative price numerator, `TransformOffer` returns an error and
no record (the zero-value record). -/
theorem transformOffer_negative_field_fails (xdr : XdrLib AccountId Asset)
    (c : Change AccountId Asset) (e : LedgerEntry AccountId Asset)
    (o : OfferEntry AccountId Asset)
    (hsel : selectSnapshot c = some e) (hdata : e.Data = LedgerEntryData.Offer o)
    (hneg : o.OfferId.val < 0 ∨ o.Amount.val < 0 ∨ o.Price.N.val < 0) :
    ∃ msg, TransformOffer xdr c = (OfferOutput.zero, some msg) := by
  rw [TransformOffer_of_offer xdr c e o hsel hdata]
  rcases buildOutput_error_or_ok xdr o e.LastModifiedLedgerSeq with h | h
  · exact h
  · obtain ⟨_, _, _, -, hid, -, -, hamt, hn, -⟩ := buildOutput_inv xdr o _ h
    omega

/-- Witness for C5: the sample offer with the offer id `-5` is rejected. -/
theorem transformOffer_negative_field_fails_witness :
    ∃ msg, TransformOffer sampleXdr
        ⟨LedgerEntryChangeType.Created, none, some sampleEntryNegativeId⟩
      = (OfferOutput.zero, some msg) :=
  transformOffer_negative_field_fails sampleXdr
    ⟨LedgerEntryChangeType.Created, none, some sampleEntryNegativeId⟩
    sampleEntryNegativeId sampleOfferNegativeId rfl rfl (Or.inl (by decide))

/-- C6: for every offer entry that passes the earlier checks, a price denominator `0` fails
with the message "Price denominator is 0 for offer <id>", which contains "denominator is 0"
and the decimal offer id, and a negative denominator fails with the message
"Price denominator is negative (<d>) for offer <id>", which contains "denominator is
negative"; the zero message never says "denominator is negative" and the negative message
never says "denominator is 0". -/
theorem transformOffer_denominator_errors (xdr : XdrLib AccountId Asset)
    (c : Change AccountId Asset) (e : LedgerEntry AccountId Asset)
    (o : OfferEntry AccountId Asset) (addr selling buying : String)
    (hsel : selectSnapshot c = some e) (hdata : e.Data = LedgerEntryData.Offer o)
    (haddr : xdr.GetAddress o.SellerId = .ok addr) (hid : 0 ≤ o.OfferId.val)
    (hsell : xdr.MarshalBase64 o.Selling = .ok selling)
    (hbuy : xdr.MarshalBase64 o.Buying = .ok buying)
    (hamt : 0 ≤ o.Amount.val) (hn : 0 ≤ o.Price.N.val) :
    (o.Price.D.val = 0 →
        TransformOffer xdr c = (OfferOutput.zero, some (msgDenominatorZero o.OfferId.val))
          ∧ containsStr (msgDenominatorZero o.OfferId.val) "denominator is 0"
          ∧ containsStr (msgDenominatorZero o.OfferId.val) (fmtD o.OfferId.val)
          ∧ ¬ containsStr (msgDenominatorZero o.OfferId.val) "denominator is negative")
      ∧ (o.Price.D.val < 0 →
        TransformOffer xdr c
            = (OfferOutput.zero, some (msgDenominatorNegative o.Price.D.val o.OfferId.val))
          ∧ containsStr (msgDenominatorNegative o.Price.D.val o.OfferId.val)
              "denominator is negative"
          ∧ ¬ containsStr (msgDenominatorNegative o.Price.D.val o.OfferId.val)
              "denominator is 0")
      ∧ ∀ d : Int, msgDenominatorZero o.OfferId.val ≠ msgDenominatorNegative d o.OfferId.val := by
  have heq := TransformOffer_of_offer xdr c e o hsel hdata
  refine ⟨fun hd => ⟨?_, ?_, ?_, msgDenominatorZero_not_negative _⟩,
    fun hd => ⟨?_, ?_, msgDenominatorNegative_not_zero _ _⟩, fun d => ?_⟩
  · rw [heq]
    simp only [buildOutput, haddr, hsell, hbuy, not_lt.mpr hid, not_lt.mpr hamt,
      not_lt.mpr hn, hd, if_true, if_false, msgDenominatorZero]
  · exact containsStr_append_left _ _ _ (by decide)
  · exact containsStr_append_right _ _ _ (containsStr_refl _)
  · rw [heq]
    simp only [buildOutput, haddr, hsell, hbuy, not_lt.mpr hid, not_lt.mpr hamt,
      not_lt.mpr hn, ne_of_lt hd, hd, if_true, if_false, msgDenominatorNegative]
  · unfold msgDenominatorNegative
    exact containsStr_append_left _ _ _ (containsStr_append_left _ _ _
      (containsStr_append_left _ _ _ (by decide)))
  · unfold msgDenominatorZero msgDenominatorNegative
    rw [String.append_assoc, String.append_assoc]
    exact denominator_messages_differ _ _

/-- Witness for C6: offer id `42` with the price denominator `0` gives an error that
contains "denominator is 0" and "42". -/
theorem transformOffer_denominator_errors_witness :
    (TransformOffer sampleXdr (sampleCreatedWithPrice ⟨3, by decide⟩ ⟨0, by decide⟩)).2
        = some "Price denominator is 0 for offer 42"
      ∧ containsStr "Price denominator is 0 for offer 42" "denominator is 0"
      ∧ containsStr "Price denominator is 0 for offer 42" "42" := by
  have h := (transformOffer_denominator_errors sampleXdr
    (sampleCreatedWithPrice ⟨3, by decide⟩ ⟨0, by decide⟩)
    (sampleEntryWithPrice ⟨3, by decide⟩ ⟨0, by decide⟩)
    (sampleOfferWithPrice ⟨3, by decide⟩ ⟨0, by decide⟩)
    "GSELLER" "native" "USD" rfl rfl rfl (by decide) rfl rfl (by decide) (by decide)).1 rfl
  have hm : msgDenominatorZero (sampleOfferWithPrice ⟨3, by decide⟩ ⟨0, by decide⟩).OfferId.val
      = "Price denominator is 0 for offer 42" := by decide
  have hf : fmtD (sampleOfferWithPrice ⟨3, by decide⟩ ⟨0, by decide⟩).OfferId.val = "42" := by
    decide
  rw [hm, hf] at h
  exact ⟨by rw [h.1], h.2.1, h.2.2.1⟩

/-- C9, as the code has it: on every change that the ingestion package hands over, the
selected snapshot (`Pre` for `Removed`, `Post` otherwise) is present, so no error of
`TransformOffer` comes from the nil check of lines 17-19 ("Ledger entry is nil"). A change
with no `Pre` and an entry in `Post` is a creation, on which `Post` is validated; on a change
with neither snapshot the method `LedgerEntryChangeType()` panics before the nil check. -/
theorem transformOffer_selected_snapshot_present (xdr : XdrLib AccountId Asset)
    (c : Change AccountId Asset) (hrec : c.Receivable) :
    (∃ e, selectSnapshot c = some e)
      ∧ (∀ site msg, (TransformOfferTraced xdr c).2 = some (site, msg) →
          site ≠ ReturnSite.nilEntry)
      ∧ TransformOffer xdr c
          = ((TransformOfferTraced xdr c).1, (TransformOfferTraced xdr c).2.map Prod.snd)
      ∧ TransformOfferOn xdr none none = none
      ∧ (∀ post : LedgerEntry AccountId Asset,
          changeTypeOf none (some post) = some LedgerEntryChangeType.Created
            ∧ TransformOfferOn xdr none (some post)
              = some (validateSnapshot xdr (some post))) := by
  obtain ⟨e, hsel⟩ := Receivable_selected c hrec
  refine ⟨⟨e, hsel⟩, fun site msg h => TransformOfferTraced_site_present xdr c e hsel site msg h,
    TransformOfferTraced_erase xdr c, rfl, fun post => ⟨rfl, ?_⟩⟩
  simp only [TransformOfferOn, changeTypeOf]
  rw [TransformOffer_eq_validate]
  rfl

/-- Witness for C9: the creation of the sample offer has its selected snapshot. -/
theorem transformOffer_selected_snapshot_present_witness :
    ∃ e, selectSnapshot sampleCreated = some e :=
  (transformOffer_selected_snapshot_present sampleXdr sampleCreated (by decide)).1

/-- Counterexample for C9 as stated: with no `Pre` and the valid sample offer in `Post` the
change is a creation and `TransformOffer` returns no error; with neither snapshot there is a
panic and no error value. -/
theorem transformOffer_absent_pre_counterexample :
    changeTypeOf (none : Option (LedgerEntry String String)) (some sampleEntry)
        = some LedgerEntryChangeType.Created
      ∧ (TransformOfferOn sampleXdr none (some sampleEntry)).map Prod.snd = some none
      ∧ TransformOfferOn sampleXdr none none = none := by
  refine ⟨rfl, by decide, rfl⟩

/-- C10: for every change whose selected snapshot is present with a payload tag other than
the offer one, `TransformOffer` fails with the zero-value record and the message
"Could not extract offer data from ledger entry; actual type is <tag>", which ends with
"actual type is <tag>" for the tag of that snapshot; the result does not depend on the
functions used by the field validations. -/
theorem transformOffer_wrong_variant (xdr : XdrLib AccountId Asset)
    (c : Change AccountId Asset) (e : LedgerEntry AccountId Asset)
    (hsel : selectSnapshot c = some e) (htag : e.Data.Type ≠ LedgerEntryType.Offer) :
    TransformOffer xdr c
        = (OfferOutput.zero, some (msgWrongVariant (xdr.TypeString e.Data.Type)))
      ∧ endsWithStr (msgWrongVariant (xdr.TypeString e.Data.Type))
          ("actual type is " ++ xdr.TypeString e.Data.Type)
      ∧ ∀ xdr' : XdrLib AccountId Asset, xdr'.TypeString = xdr.TypeString →
          TransformOffer xdr' c = TransformOffer xdr c := by
  have hres : ∀ x : XdrLib AccountId Asset,
      TransformOffer x c = (OfferOutput.zero, some (msgWrongVariant (x.TypeString e.Data.Type))) := by
    intro x
    rw [TransformOffer_eq_validate, hsel]
    cases hdata : e.Data with
    | Offer o => rw [hdata] at htag; exact absurd rfl htag
    | Account => simp only [validateSnapshot, extractOffer, hdata, LedgerEntryData.GetOffer,
        msgWrongVariant]
    | Trustline => simp only [validateSnapshot, extractOffer, hdata, LedgerEntryData.GetOffer,
        msgWrongVariant]
    | Data => simp only [validateSnapshot, extractOffer, hdata, LedgerEntryData.GetOffer,
        msgWrongVariant]
  refine ⟨hres xdr, ?_, fun xdr' h => ?_⟩
  · have hlit : "Could not extract offer data from ledger entry; actual type is "
        = "Could not extract offer data from ledger entry; " ++ "actual type is " := by decide
    unfold msgWrongVariant
    rw [hlit, String.append_assoc]
    exact endsWithStr_append _ _
  · rw [hres xdr', hres xdr, h]

/-- Witness for C10: an account entry created is reported with its tag. -/
theorem transformOffer_wrong_variant_witness :
    TransformOffer sampleXdr ⟨LedgerEntryChangeType.Created, none, some sampleAccountEntry⟩
      = (OfferOutput.zero,
          some "Could not extract offer data from ledger entry; actual type is LedgerEntryTypeAccount")
      ∧ endsWithStr
          "Could not extract offer data from ledger entry; actual type is LedgerEntryTypeAccount"
          "actual type is LedgerEntryTypeAccount" := by
  have h := transformOffer_wrong_variant sampleXdr
    ⟨LedgerEntryChangeType.Created, none, some sampleAccountEntry⟩ sampleAccountEntry rfl
    (by decide)
  exact ⟨h.1, h.2.1⟩

end Failure

/-! ## Order of the checks and content of the messages -/

section Order

variable {AccountId Asset : Type}

/-- C11: validation is fail-fast in a fixed order. For every offer entry the error returned
is the one of the first violated check in the order seller identity, offer id, selling
asset, buying asset, amount, numerator, denominator zero, denominator negative, whatever the
later fields are. In particular an entry whose seller resolves, with a negative offer id and
a zero denominator, yields the offer-id error, and an entry that passes the checks before
the amount, with a negative amount and a negative numerator, yields the amount error. -/
theorem transformOffer_fail_fast_order (xdr : XdrLib AccountId Asset)
    (c : Change AccountId Asset) (e : LedgerEntry AccountId Asset)
    (o : OfferEntry AccountId Asset)
    (hsel : selectSnapshot c = some e) (hdata : e.Data = LedgerEntryData.Offer o) :
    TransformOffer xdr c
        = ((TransformOfferTraced xdr c).1, (TransformOfferTraced xdr c).2.map Prod.snd)
    ∧ (∀ err, xdr.GetAddress o.SellerId = .error err →
        TransformOfferTraced xdr c = (OfferOutput.zero, some (ReturnSite.sellerAddress, err)))
    ∧ (∀ addr, xdr.GetAddress o.SellerId = .ok addr →
      (o.OfferId.val < 0 →
        TransformOfferTraced xdr c = (OfferOutput.zero,
          some (ReturnSite.offerIdNegative, msgOfferIdNegative o.OfferId.val addr)))
      ∧ (0 ≤ o.OfferId.val →
        (∀ err, xdr.MarshalBase64 o.Selling = .error err →
          TransformOfferTraced xdr c = (OfferOutput.zero, some (ReturnSite.sellingAsset, err)))
        ∧ (∀ selling, xdr.MarshalBase64 o.Selling = .ok selling →
          (∀ err, xdr.MarshalBase64 o.Buying = .error err →
            TransformOfferTraced xdr c
              = (OfferOutput.zero, some (ReturnSite.buyingAsset, err)))
          ∧ (∀ buying, xdr.MarshalBase64 o.Buying = .ok buying →
            (o.Amount.val < 0 →
              TransformOfferTraced xdr c = (OfferOutput.zero,
                some (ReturnSite.amountNegative,
                  msgAmountNegative o.Amount.val o.OfferId.val)))
            ∧ (0 ≤ o.Amount.val →
              (o.Price.N.val < 0 →
                TransformOfferTraced xdr c = (OfferOutput.zero,
                  some (ReturnSite.numeratorNegative,
                    msgNumeratorNegative o.Price.N.val o.OfferId.val)))
              ∧ (0 ≤ o.Price.N.val →
                (o.Price.D.val = 0 →
                  TransformOfferTraced xdr c = (OfferOutput.zero,
                    some (ReturnSite.denominatorZero, msgDenominatorZero o.OfferId.val)))
                ∧ (o.Price.D.val < 0 →
                  TransformOfferTraced xdr c = (OfferOutput.zero,
                    some (ReturnSite.denominatorNegative,
                      msgDenominatorNegative o.Price.D.val o.OfferId.val)))
                ∧ (0 < o.Price.D.val → (TransformOfferTraced xdr c).2 = none)))))))
    ∧ (∀ addr, xdr.GetAddress o.SellerId = .ok addr → o.OfferId.val < 0 →
        o.Price.D.val = 0 →
        TransformOffer xdr c
          = (OfferOutput.zero, some (msgOfferIdNegative o.OfferId.val addr)))
    ∧ (∀ addr selling buying, xdr.GetAddress o.SellerId = .ok addr → 0 ≤ o.OfferId.val →
        xdr.MarshalBase64 o.Selling = .ok selling → xdr.MarshalBase64 o.Buying = .ok buying →
        o.Amount.val < 0 → o.Price.N.val < 0 →
        TransformOffer xdr c
          = (OfferOutput.zero, some (msgAmountNegative o.Amount.val o.OfferId.val))) := by
  have h := TransformOfferTraced_of_offer xdr c e o hsel hdata
  refine ⟨TransformOfferTraced_erase xdr c, fun err haddr => ?_, fun addr haddr =>
    ⟨fun hid => ?_, fun hid => ⟨fun err hsell => ?_, fun selling hsell =>
      ⟨fun err hbuy => ?_, fun buying hbuy => ⟨fun hamt => ?_, fun hamt =>
        ⟨fun hn => ?_, fun hn => ⟨fun hd => ?_, fun hd => ?_, fun hd => ?_⟩⟩⟩⟩⟩⟩,
    fun addr haddr hid _ => ?_, fun addr selling buying haddr hid hsell hbuy hamt _ => ?_⟩
  · rw [h, haddr]
  · rw [h, haddr]; simp only [hid, if_true]
  · rw [h, haddr]; simp only [not_lt.mpr hid, if_false, hsell]
  · rw [h, haddr]; simp only [not_lt.mpr hid, if_false, hsell, hbuy]
  · rw [h, haddr]; simp only [not_lt.mpr hid, if_false, hsell, hbuy, hamt, if_true]
  · rw [h, haddr]
    simp only [not_lt.mpr hid, if_false, hsell, hbuy, not_lt.mpr hamt, hn, if_true]
  · rw [h, haddr]
    simp only [not_lt.mpr hid, if_false, hsell, hbuy, not_lt.mpr hamt, not_lt.mpr hn, hd,
      if_true]
  · rw [h, haddr]
    simp only [not_lt.mpr hid, if_false, hsell, hbuy, not_lt.mpr hamt, not_lt.mpr hn,
      ne_of_lt hd, hd, if_true]
  · rw [h, haddr]
    simp only [not_lt.mpr hid, if_false, hsell, hbuy, not_lt.mpr hamt, not_lt.mpr hn,
      ne_of_gt hd, not_lt.mpr (le_of_lt hd)]
  · apply TransformOffer_of_traced xdr c ReturnSite.offerIdNegative
    rw [h, haddr]; simp only [hid, if_true]
  · apply TransformOffer_of_traced xdr c ReturnSite.amountNegative
    rw [h, haddr]; simp only [not_lt.mpr hid, if_false, hsell, hbuy, hamt, if_true]

/-- Witness for C11: offer id `-5` with denominator `0` yields the offer-id error, amount
`-7` with numerator `-1` yields the amount error. -/
theorem transformOffer_fail_fast_order_witness :
    TransformOffer sampleXdr (sampleCreatedOf sampleOfferBadIdZeroD)
        = (OfferOutput.zero, some "OfferID is negative (-5) for offer from account: GSELLER")
      ∧ TransformOffer sampleXdr (sampleCreatedOf sampleOfferBadAmountBadN)
        = (OfferOutput.zero, some "Amount is negative (-7) for offer 42") := by
  have h1 := (transformOffer_fail_fast_order sampleXdr (sampleCreatedOf sampleOfferBadIdZeroD)
    (sampleEntryOf sampleOfferBadIdZeroD) sampleOfferBadIdZeroD rfl rfl).2.2.2.1
    "GSELLER" rfl (by decide) rfl
  have h2 := (transformOffer_fail_fast_order sampleXdr
    (sampleCreatedOf sampleOfferBadAmountBadN)
    (sampleEntryOf sampleOfferBadAmountBadN) sampleOfferBadAmountBadN rfl rfl).2.2.2.2
    "GSELLER" "native" "USD" rfl (by decide) rfl rfl (by decide) (by decide)
  have m1 : msgOfferIdNegative sampleOfferBadIdZeroD.OfferId.val "GSELLER"
      = "OfferID is negative (-5) for offer from account: GSELLER" := by decide
  have m2 : msgAmountNegative sampleOfferBadAmountBadN.Amount.val
      sampleOfferBadAmountBadN.OfferId.val = "Amount is negative (-7) for offer 42" := by
    decide
  rw [m1] at h1
  rw [m2] at h2
  exact ⟨h1, h2⟩

/-- C12: each invalid-field message carries the context that locates the record. For every
offer entry failing first on a negative offer id the message contains the resolved seller
address and the negative id; failing first on a negative amount, the decimal offer id and
the negative amount; failing first on a negative numerator, the decimal offer id. -/
theorem transformOffer_messages_carry_context (xdr : XdrLib AccountId Asset)
    (c : Change AccountId Asset) (e : LedgerEntry AccountId Asset)
    (o : OfferEntry AccountId Asset) (addr : String)
    (hsel : selectSnapshot c = some e) (hdata : e.Data = LedgerEntryData.Offer o)
    (haddr : xdr.GetAddress o.SellerId = .ok addr) :
    (o.OfferId.val < 0 →
        TransformOffer xdr c
            = (OfferOutput.zero, some (msgOfferIdNegative o.OfferId.val addr))
          ∧ containsStr (msgOfferIdNegative o.OfferId.val addr) addr
          ∧ containsStr (msgOfferIdNegative o.OfferId.val addr) (fmtD o.OfferId.val))
      ∧ (∀ selling buying, 0 ≤ o.OfferId.val →
          xdr.MarshalBase64 o.Selling = .ok selling →
          xdr.MarshalBase64 o.Buying = .ok buying →
          (o.Amount.val < 0 →
            TransformOffer xdr c
                = (OfferOutput.zero, some (msgAmountNegative o.Amount.val o.OfferId.val))
              ∧ containsStr (msgAmountNegative o.Amount.val o.OfferId.val)
                  (fmtD o.OfferId.val)
              ∧ containsStr (msgAmountNegative o.Amount.val o.OfferId.val)
                  (fmtD o.Amount.val))
          ∧ (0 ≤ o.Amount.val → o.Price.N.val < 0 →
            TransformOffer xdr c
                = (OfferOutput.zero,
                    some (msgNumeratorNegative o.Price.N.val o.OfferId.val))
              ∧ containsStr (msgNumeratorNegative o.Price.N.val o.OfferId.val)
                  (fmtD o.OfferId.val))) := by
  have h := TransformOfferTraced_of_offer xdr c e o hsel hdata
  rw [haddr] at h
  refine ⟨fun hid => ⟨?_, ?_, ?_⟩, fun selling buying hid hsell hbuy =>
    ⟨fun hamt => ⟨?_, ?_, ?_⟩, fun hamt hn => ⟨?_, ?_⟩⟩⟩
  · apply TransformOffer_of_traced xdr c ReturnSite.offerIdNegative
    rw [h]; simp only [hid, if_true]
  · exact containsStr_append_right _ _ _ (containsStr_refl _)
  · unfold msgOfferIdNegative
    exact containsStr_append_left _ _ _ (containsStr_append_left _ _ _
      (containsStr_append_right _ _ _ (containsStr_refl _)))
  · apply TransformOffer_of_traced xdr c ReturnSite.amountNegative
    rw [h]; simp only [not_lt.mpr hid, if_false, hsell, hbuy, hamt, if_true]
  · exact containsStr_append_right _ _ _ (containsStr_refl _)
  · unfold msgAmountNegative
    exact containsStr_append_left _ _ _ (containsStr_append_left _ _ _
      (containsStr_append_right _ _ _ (containsStr_refl _)))
  · apply TransformOffer_of_traced xdr c ReturnSite.numeratorNegative
    rw [h]
    simp only [not_lt.mpr hid, if_false, hsell, hbuy, not_lt.mpr hamt, hn, if_true]
  · exact containsStr_append_right _ _ _ (containsStr_refl _)

/-- Witness for C12: the message for the offer id `-5` of the seller `GSELLER`. -/
theorem transformOffer_messages_carry_context_witness :
    TransformOffer sampleXdr (sampleCreatedOf sampleOfferBadIdZeroD)
        = (OfferOutput.zero, some "OfferID is negative (-5) for offer from account: GSELLER")
      ∧ containsStr "OfferID is negative (-5) for offer from account: GSELLER" "GSELLER"
      ∧ containsStr "OfferID is negative (-5) for offer from account: GSELLER" "-5" := by
  have h := (transformOffer_messages_carry_context sampleXdr
    (sampleCreatedOf sampleOfferBadIdZeroD) (sampleEntryOf sampleOfferBadIdZeroD)
    sampleOfferBadIdZeroD "GSELLER" rfl rfl rfl).1 (by decide)
  have m : msgOfferIdNegative sampleOfferBadIdZeroD.OfferId.val "GSELLER"
      = "OfferID is negative (-5) for offer from account: GSELLER" := by decide
  have f : fmtD sampleOfferBadIdZeroD.OfferId.val = "-5" := by decide
  rw [m, f] at h
  exact h

end Order

/-! ## Determinism, dead checks and the record on failure -/

section Purity

variable {AccountId Asset : Type}

/-- C13: `TransformOffer` is deterministic. Two invocations on the same change return the
same pair of record and error, and the result depends on nothing but the change: it is the
same for any two environments in which the `xdr` calls made on the data of the selected
snapshot return the same values. -/
theorem transformOffer_deterministic (xdr other : XdrLib AccountId Asset)
    (c₁ c₂ : Change AccountId Asset) (hc : c₁ = c₂)
    (htag : ∀ e, selectSnapshot c₁ = some e →
      xdr.TypeString e.Data.Type = other.TypeString e.Data.Type)
    (hcalls : ∀ e o, selectSnapshot c₁ = some e → e.Data = LedgerEntryData.Offer o →
      xdr.GetAddress o.SellerId = other.GetAddress o.SellerId
        ∧ xdr.MarshalBase64 o.Selling = other.MarshalBase64 o.Selling
        ∧ xdr.MarshalBase64 o.Buying = other.MarshalBase64 o.Buying) :
    TransformOffer xdr c₁ = TransformOffer xdr c₂
      ∧ TransformOffer xdr c₁ = TransformOffer other c₂ := by
  subst hc
  refine ⟨rfl, ?_⟩
  rw [TransformOffer_eq_validate, TransformOffer_eq_validate]
  cases hsel : selectSnapshot c₁ with
  | none => rfl
  | some e =>
    have ht := htag e hsel
    cases hdata : e.Data with
    | Offer o =>
      obtain ⟨h1, h2, h3⟩ := hcalls e o hsel hdata
      simp only [validateSnapshot, extractOffer, hdata, LedgerEntryData.GetOffer, buildOutput,
        h1, h2, h3]
    | Account =>
      rw [hdata] at ht
      simp only [validateSnapshot, extractOffer, hdata, LedgerEntryData.GetOffer, ht]
    | Trustline =>
      rw [hdata] at ht
      simp only [validateSnapshot, extractOffer, hdata, LedgerEntryData.GetOffer, ht]
    | Data =>
      rw [hdata] at ht
      simp only [validateSnapshot, extractOffer, hdata, LedgerEntryData.GetOffer, ht]

/-- Witness for C13: the creation of the sample offer, twice, and under two environments
that agree on the sample offer. -/
theorem transformOffer_deterministic_witness :
    TransformOffer sampleXdr sampleCreated = TransformOffer sampleXdr sampleCreated
      ∧ TransformOffer sampleXdr sampleCreated = TransformOffer sampleXdrOther sampleCreated :=
  transformOffer_deterministic sampleXdr sampleXdrOther sampleCreated sampleCreated rfl
    (fun _ _ => rfl)
    (fun e o hsel hdata => by
      have he : sampleEntry = e := Option.some.inj hsel
      subst he
      have ho : sampleOffer = o := LedgerEntryData.Offer.inj hdata
      subst ho
      exact ⟨rfl, rfl, rfl⟩)

/-- C16: the flags check can never trigger. For every change, no error of `TransformOffer`
comes from the `return` statement of the flags check, the `uint32` flags value is never
negative, the error (and so success or failure) is the same for every value of the flags
field, and on success `Flags` is the flags of the offer. -/
theorem transformOffer_flags_check_never_triggers (xdr : XdrLib AccountId Asset)
    (c : Change AccountId Asset) :
    (∀ site msg, (TransformOfferTraced xdr c).2 = some (site, msg) →
        site ≠ ReturnSite.flagsNegative)
      ∧ TransformOffer xdr c
          = ((TransformOfferTraced xdr c).1, (TransformOfferTraced xdr c).2.map Prod.snd)
      ∧ (∀ flags : Uint32, ¬ flags.val < 0)
      ∧ (∀ flags : Uint32,
          (TransformOffer xdr (c.withFlags flags)).2 = (TransformOffer xdr c).2)
      ∧ (∀ e o, selectSnapshot c = some e → e.Data = LedgerEntryData.Offer o →
          (TransformOffer xdr c).2 = none → (TransformOffer xdr c).1.Flags = o.Flags) := by
  refine ⟨fun site msg h => (TransformOfferTraced_site xdr c site msg h).1,
    TransformOfferTraced_erase xdr c, fun flags => not_lt.mpr flags.property.1,
    fun flags => TransformOffer_withFlags_error xdr c flags, fun e o hsel hdata hok => ?_⟩
  obtain ⟨e', o', addr, selling, buying, hsel', hdata', -, -, -, -, -, -, -, heq⟩ :=
    TransformOffer_success xdr c hok
  have he : e' = e := Option.some.inj (hsel'.symm.trans hsel)
  subst he
  have ho : o' = o := LedgerEntryData.Offer.inj (hdata'.symm.trans hdata)
  subst ho
  rw [heq]
  rfl

/-- Witness for C16: the sample offer with every flag bit set succeeds as the sample offer
does, and the record of the sample offer has its flags. -/
theorem transformOffer_flags_check_never_triggers_witness :
    (TransformOffer sampleXdr (sampleCreated.withFlags ⟨4294967295, by decide⟩)).2
        = (TransformOffer sampleXdr sampleCreated).2
      ∧ (TransformOffer sampleXdr sampleCreated).1.Flags = sampleOffer.Flags :=
  ⟨(transformOffer_flags_check_never_triggers sampleXdr sampleCreated).2.2.2.1
      ⟨4294967295, by decide⟩,
    (transformOffer_flags_check_never_triggers sampleXdr sampleCreated).2.2.2.2
      sampleEntry sampleOffer rfl rfl (by decide)⟩

/-- C17: the last-modified-ledger check can never trigger. Every `uint32` ledger sequence
widened to `int64` keeps its value, which lies in `[0, 2^32 - 1]`; no error of
`TransformOffer` comes from the `return` statement of that check, and the error (and so
success or failure) is the same for every ledger sequence. -/
theorem transformOffer_last_modified_check_never_triggers (xdr : XdrLib AccountId Asset)
    (c : Change AccountId Asset) :
    (∀ seq : Uint32, seq.toInt64.val = seq.val ∧ 0 ≤ seq.toInt64.val
        ∧ seq.toInt64.val ≤ 4294967295)
      ∧ (∀ site msg, (TransformOfferTraced xdr c).2 = some (site, msg) →
          site ≠ ReturnSite.lastModifiedNegative)
      ∧ TransformOffer xdr c
          = ((TransformOfferTraced xdr c).1, (TransformOfferTraced xdr c).2.map Prod.snd)
      ∧ (∀ seq : Uint32, (TransformOffer xdr (c.withSeq seq)).2 = (TransformOffer xdr c).2) := by
  refine ⟨fun seq => ⟨rfl, seq.property.1, ?_⟩,
    fun site msg h => (TransformOfferTraced_site xdr c site msg h).2,
    TransformOfferTraced_erase xdr c, fun seq => TransformOffer_withSeq_error xdr c seq⟩
  have h := seq.property.2
  show seq.val ≤ 4294967295
  omega

/-- Witness for C17: the sample offer last modified in the largest ledger sequence. -/
theorem transformOffer_last_modified_check_never_triggers_witness :
    (TransformOffer sampleXdr (sampleCreated.withSeq ⟨4294967295, by decide⟩)).2
        = (TransformOffer sampleXdr sampleCreated).2 :=
  (transformOffer_last_modified_check_never_triggers sampleXdr sampleCreated).2.2.2
    ⟨4294967295, by decide⟩

/-- C18: on every failure `TransformOffer` returns the zero-value record with the error:
empty strings, `0` integers and the price `0.0`, so that no field computed before the
failing check is in the result. -/
theorem transformOffer_failure_returns_zero_record (xdr : XdrLib AccountId Asset)
    (c : Change AccountId Asset) (h : (TransformOffer xdr c).2 ≠ none) :
    (TransformOffer xdr c).1 = OfferOutput.zero
      ∧ (TransformOffer xdr c).1.SellerID = ""
      ∧ (TransformOffer xdr c).1.OfferID.val = 0
      ∧ (TransformOffer xdr c).1.SellingAsset = ""
      ∧ (TransformOffer xdr c).1.BuyingAsset = ""
      ∧ (TransformOffer xdr c).1.Amount.val = 0
      ∧ (TransformOffer xdr c).1.PriceN.val = 0
      ∧ (TransformOffer xdr c).1.PriceD.val = 0
      ∧ (TransformOffer xdr c).1.Price = 0
      ∧ (TransformOffer xdr c).1.Flags.val = 0
      ∧ (TransformOffer xdr c).1.LastModifiedLedger.val = 0 := by
  rw [TransformOffer_error_zero xdr c h]
  exact ⟨rfl, rfl, rfl, rfl, rfl, rfl, rfl, rfl, rfl, rfl, rfl⟩

/-- Witness for C18: the offer with the id `-5` fails after its seller has been resolved,
and the record returned has an empty seller. -/
theorem transformOffer_failure_returns_zero_record_witness :
    (TransformOffer sampleXdr (sampleCreatedOf sampleOfferBadIdZeroD)).2 ≠ none
      ∧ (TransformOffer sampleXdr (sampleCreatedOf sampleOfferBadIdZeroD)).1
          = OfferOutput.zero
      ∧ (TransformOffer sampleXdr (sampleCreatedOf sampleOfferBadIdZeroD)).1.SellerID = "" :=
  ⟨by decide,
    (transformOffer_failure_returns_zero_record sampleXdr
      (sampleCreatedOf sampleOfferBadIdZeroD) (by decide)).1,
    (transformOffer_failure_returns_zero_record sampleXdr
      (sampleCreatedOf sampleOfferBadIdZeroD) (by decide)).2.1⟩

/-- C19: whenever `TransformOffer` succeeds, `Price` is not negative and is `0` exactly when
`PriceN` is `0` (for a positive `PriceN` the quotient is strictly positive), with
`PriceD > 0`. The division of line 67 is only evaluated after the denominator checks: the
only `return` statements after it are those of the flags check and of the ledger sequence
check, which are never taken, and the successful one. -/
theorem transformOffer_price_sign (xdr : XdrLib AccountId Asset) (c : Change AccountId Asset) :
    ((TransformOffer xdr c).2 = none →
        0 ≤ (TransformOffer xdr c).1.Price
          ∧ ((TransformOffer xdr c).1.Price = 0 ↔ (TransformOffer xdr c).1.PriceN.val = 0)
          ∧ (0 < (TransformOffer xdr c).1.PriceN.val → 0 < (TransformOffer xdr c).1.Price)
          ∧ 0 < (TransformOffer xdr c).1.PriceD.val)
      ∧ (∀ site msg, (TransformOfferTraced xdr c).2 = some (site, msg) →
          site ≠ ReturnSite.flagsNegative ∧ site ≠ ReturnSite.lastModifiedNegative)
      ∧ TransformOffer xdr c
          = ((TransformOfferTraced xdr c).1, (TransformOfferTraced xdr c).2.map Prod.snd) := by
  refine ⟨fun hok => ?_, TransformOfferTraced_site xdr c, TransformOfferTraced_erase xdr c⟩
  obtain ⟨e, o, addr, selling, buying, -, -, -, -, -, -, -, hn, hd, heq⟩ :=
    TransformOffer_success xdr c hok
  rw [heq]
  show 0 ≤ computePrice o.Price.N o.Price.D
    ∧ (computePrice o.Price.N o.Price.D = 0 ↔ o.Price.N.val = 0)
    ∧ (0 < o.Price.N.val → 0 < computePrice o.Price.N o.Price.D)
    ∧ 0 < o.Price.D.val
  by_cases hn0 : 0 < o.Price.N.val
  · have hp : 0 < computePrice o.Price.N o.Price.D := by
      simp only [computePrice, hn0, if_true, Float64.div]
      exact roundFloat64_pos _ (int32_quotient_normal _ _ hn0 hd)
    exact ⟨le_of_lt hp, ⟨fun h => absurd h (ne_of_gt hp), fun h => absurd h (ne_of_gt hn0)⟩,
      fun _ => hp, hd⟩
  · have hz : computePrice o.Price.N o.Price.D = 0 := by
      simp only [computePrice, hn0, if_false]
    have hn1 : o.Price.N.val = 0 := le_antisymm (not_lt.mp hn0) hn
    exact ⟨le_of_eq hz.symm, ⟨fun _ => hn1, fun _ => hz⟩, fun h => absurd h hn0, hd⟩

/-- Witness for C19: the sample offer, price `3/2`. -/
theorem transformOffer_price_sign_witness :
    (TransformOffer sampleXdr sampleCreated).2 = none
      ∧ 0 ≤ (TransformOffer sampleXdr sampleCreated).1.Price
      ∧ ((TransformOffer sampleXdr sampleCreated).1.Price = 0
          ↔ (TransformOffer sampleXdr sampleCreated).1.PriceN.val = 0)
      ∧ (0 < (TransformOffer sampleXdr sampleCreated).1.PriceN.val
          → 0 < (TransformOffer sampleXdr sampleCreated).1.Price)
      ∧ 0 < (TransformOffer sampleXdr sampleCreated).1.PriceD.val :=
  ⟨by decide, (transformOffer_price_sign sampleXdr sampleCreated).1 (by decide)⟩

end Purity

/-! ## `internal/utils`: time points and sample results -/

/-- C14: `TimePointToUTCTimeStamp` returns an error exactly for negative timepoints. The
conversion to `int64` is negative exactly for the `uint64` values from `2^63` on; for those
the error is "The timepoint is negative"; for every other timepoint there is no error and
the result is a UTC time whose Unix seconds are the timepoint, with zero nanoseconds. -/
theorem timePointToUTCTimeStamp_error_iff_negative (now : Time) (t : Uint64) :
    (t.toInt64.val < 0 ↔ 9223372036854775808 ≤ t.val)
      ∧ ((TimePointToUTCTimeStamp now t).2 ≠ none ↔ t.toInt64.val < 0)
      ∧ (t.toInt64.val < 0 →
          TimePointToUTCTimeStamp now t = (now, some "The timepoint is negative"))
      ∧ (¬ t.toInt64.val < 0 →
          (TimePointToUTCTimeStamp now t).2 = none
            ∧ (TimePointToUTCTimeStamp now t).1.Unix.val = t.val
            ∧ (TimePointToUTCTimeStamp now t).1.Nanosecond = 0
            ∧ (TimePointToUTCTimeStamp now t).1.loc = Location.UTC) := by
  have ht := t.property
  have hconv : t.toInt64.val < 0 ↔ 9223372036854775808 ≤ t.val := by
    simp only [Uint64.toInt64, wrapInt64]
    omega
  refine ⟨hconv, ?_, ?_, ?_⟩
  · unfold TimePointToUTCTimeStamp
    simp only []
    split_ifs with h
    · simp [h]
    · simp [h]
  · intro h
    unfold TimePointToUTCTimeStamp
    simp only [h, if_true]
  · intro h
    have hlt : t.val < 9223372036854775808 := by
      by_contra hc
      exact h (hconv.mpr (not_lt.mp hc))
    unfold TimePointToUTCTimeStamp
    simp only [h, if_false, timeUnix_zero_nsec]
    refine ⟨trivial, ?_, ?_, ?_⟩
    · simp only [Time.Unix, Time.sec, Time.UTC, unixToInternal, wrapInt64, Uint64.toInt64]
      norm_num
      omega
    · simp [Time.Nanosecond, Time.UTC]
    · simp [Time.UTC]

/-- Witness for C14: the timepoint `1600000000` is converted, the timepoint `2^63` is
rejected. -/
theorem timePointToUTCTimeStamp_error_iff_negative_witness :
    ((TimePointToUTCTimeStamp sampleNow ⟨1600000000, by decide⟩).2 = none
        ∧ (TimePointToUTCTimeStamp sampleNow ⟨1600000000, by decide⟩).1.Unix.val = 1600000000)
      ∧ TimePointToUTCTimeStamp sampleNow ⟨9223372036854775808, by decide⟩
          = (sampleNow, some "The timepoint is negative") :=
  ⟨⟨((timePointToUTCTimeStamp_error_iff_negative sampleNow
        ⟨1600000000, by decide⟩).2.2.2 (by decide)).1,
      ((timePointToUTCTimeStamp_error_iff_negative sampleNow
        ⟨1600000000, by decide⟩).2.2.2 (by decide)).2.1⟩,
    (timePointToUTCTimeStamp_error_iff_negative sampleNow
      ⟨9223372036854775808, by decide⟩).2.2.1 (by decide)⟩

/-- C15: `CreateSampleResultMeta` builds a result with the desired success flag and number
of sub-operation results. The code is `TxSuccess` if `successful` and `TxFailed` otherwise;
for a count that is not negative the results are exactly that many, each with the code
`OpInner`; for a negative count the results are the empty, non-nil slice. The loop
terminates for every count. -/
theorem createSampleResultMeta_code_and_results (successful : Bool) (count : Int64) :
    (CreateSampleResultMeta successful count).Result.Result.Result.Code
        = (if successful then TransactionResultCodeTxSuccess
            else TransactionResultCodeTxFailed)
      ∧ TransactionResultCodeTxSuccess ≠ TransactionResultCodeTxFailed
      ∧ (0 ≤ count.val →
          ∃ rs, (CreateSampleResultMeta successful count).Result.Result.Result.Results = some rs
            ∧ (rs.length : Int) = count.val
            ∧ ∀ r ∈ rs, r.Code = OperationResultCodeOpInner)
      ∧ (count.val < 0 →
          (CreateSampleResultMeta successful count).Result.Result.Result.Results = some []) := by
  refine ⟨rfl, by decide, fun h => ⟨_, CreateSampleResultMeta_results successful count, ?_, ?_⟩,
    fun h => ?_⟩
  · rw [List.length_replicate]
    exact Int.toNat_of_nonneg h
  · intro r hr
    rw [List.eq_of_mem_replicate hr]
  · rw [CreateSampleResultMeta_results]
    have : count.val.toNat = 0 := by omega
    rw [this]
    rfl

/-- Witness for C15: two results on request, none for the count `-3`. -/
theorem createSampleResultMeta_code_and_results_witness :
    (∃ rs, (CreateSampleResultMeta true ⟨2, by decide⟩).Result.Result.Result.Results = some rs
        ∧ (rs.length : Int) = 2 ∧ ∀ r ∈ rs, r.Code = OperationResultCodeOpInner)
      ∧ (CreateSampleResultMeta false ⟨-3, by decide⟩).Result.Result.Result.Results
          = some [] :=
  ⟨(createSampleResultMeta_code_and_results true ⟨2, by decide⟩).2.2.1 (by decide),
    (createSampleResultMeta_code_and_results false ⟨-3, by decide⟩).2.2.2 (by decide)⟩

end StellarEtl
